/-
  Verification of the PathwiseAI roadmap-generation pipeline and chat service.

  Shallow embedding of `backend/app/services/roadmap_service.py`
  (class `RoadmapService`) and `backend/app/services/ai_service.py`
  (class `AIService`).  Python dict records become Lean structures; fields a
  dict may lack are given the neutral defaults the Python `dict.get` calls
  supply.  Network-bound collaborator calls (external resource providers, the
  generative text provider) are modelled as explicit input parameters: a
  provider's gathered successful results become a plain list argument, and a
  model call becomes an `Except`/`Option` argument, matching the code's
  try/except handling.
-/
import Mathlib

namespace PathwiseAI

/-- Contiguous-sublist test over characters: `pat` occurs somewhere in `l`. -/
def charsContain (pat : List Char) : List Char → Bool
  | [] => pat.isEmpty
  | c :: cs => pat.isPrefixOf (c :: cs) || charsContain pat cs

/-- Python's `pat in s` substring test (both operands already lower-cased by
    the callers we embed). -/
def strContains (s pat : String) : Bool :=
  charsContain pat.toList s.toList

/-- Python's `s.lower()` for the ASCII text this service handles, written
    over the character list so that it evaluates by kernel reduction
    (`String.toLower`'s `mapAux` does not). -/
def strLower (s : String) : String := ⟨s.data.map Char.toLower⟩

/-- Python's `d.get(key, default)` over an association list (used for the
    string-keyed lookup tables such as `duration_map`). -/
def lookupD (m : List (String × String)) (key default : String) : String :=
  match m.find? (fun p => p.1 = key) with
  | some p => p.2
  | none => default

/-- A learning-resource record (`ResourceRecord` in the spec): the dicts built
    by the provider fetchers, the curated table and the generic placeholders.
    A missing or `None` `url` is modelled as `""` — Python's dedup loop treats
    both identically via `if not url: continue`. -/
structure ResourceRecord where
  title : String := ""
  description : String := ""
  url : String := ""
  platform : String := ""
  duration : String := ""
  rating : String := ""
  instructor : String := ""
  difficulty : String := ""
  tags : List String := []
  deriving Repr, DecidableEq, Inhabited

/-- A roadmap milestone: name, description, target-date text, criteria. -/
structure Milestone where
  name : String := ""
  description : String := ""
  target_date : String := ""
  criteria : List String := []
  deriving Repr, DecidableEq, Inhabited

/-- A roadmap phase.  `resources`, `completed_topics` and
    `completion_percentage` are `Option`s because the corresponding dict keys
    exist only after the enrichment / completion-tracking steps ran. -/
structure RoadmapPhase where
  name : String := ""
  duration : String := ""
  description : String := ""
  topics : List String := []
  difficulty : String := "beginner"
  resources : Option (List ResourceRecord) := none
  completed_topics : Option (List String) := none
  completion_percentage : Option Nat := none
  deriving Repr, DecidableEq, Inhabited

/-- The career record assembled by `generate_roadmap` from the catalog data
    (or synthesized when the career is unknown). -/
structure CareerData where
  name : String := ""
  description : String := ""
  skills : List String := []
  category : String := ""
  deriving Repr, DecidableEq, Inhabited

/-- A roadmap document.  `resources` and `error` are optional dict keys;
    `skill_domains` is the domain-name → skill-list map. -/
structure Roadmap where
  career : String := ""
  overview : String := ""
  estimated_duration : String := ""
  skill_domains : List (String × List String) := []
  phases : List RoadmapPhase := []
  milestones : List Milestone := []
  resources : Option (List ResourceRecord) := none
  math_prerequisites : List String := []
  error : Option String := none
  deriving Repr, DecidableEq, Inhabited

/-! ## Resource de-duplication (`enhance_roadmap_with_resources`, inner loop)

The Python loop keeps a `seen_urls` set and an output list capped at 40:

    for resource in all_resources:
        url = resource.get('url')
        if not url: continue
        if url not in seen_urls and len(unique_resources) < 40:
            unique_resources.append(resource); seen_urls.add(url)
-/

/-- One iteration of the dedup loop; the state is `(unique_resources,
    seen_urls)`.  `seen_urls` is a Python set — we keep it as a list queried
    only through membership, inserting at the head. -/
def dedupStep (acc : List ResourceRecord × List String) (r : ResourceRecord) :
    List ResourceRecord × List String :=
  if r.url = "" then acc
  else if ¬ r.url ∈ acc.2 ∧ acc.1.length < 40 then
    (acc.1 ++ [r], r.url :: acc.2)
  else acc

/-- The de-duplicated, 40-capped resource list built by
    `enhance_roadmap_with_resources` from the concatenated provider results
    and curated entries. -/
def dedupResources (all_resources : List ResourceRecord) : List ResourceRecord :=
  (all_resources.foldl dedupStep ([], [])).1

/-- Reference first-occurrence filter: keeps the first record carrying each
    not-yet-seen nonempty URL, in input order, with no cap.  Used to state
    what `dedupResources` computes. -/
def firstSeenBy (seen : List String) : List ResourceRecord → List ResourceRecord
  | [] => []
  | r :: rs =>
    if r.url = "" ∨ r.url ∈ seen then firstSeenBy seen rs
    else r :: firstSeenBy (r.url :: seen) rs

/-- The curated per-career resource table of `_get_career_specific_resources`
    (roadmap_service.py): an if/elif chain of case-insensitive substring matches
    on the career name, each branch a hand-authored list of resource records. -/
def careerSpecificBase (career_lower : String) : List ResourceRecord :=
  if ((strContains career_lower "software" && strContains career_lower "engineer") || strContains career_lower "software engineer" || strContains career_lower "computer science") then [
    { title := "FreeCodeCamp: Full Stack Development Curriculum", description := "A comprehensive, free resource covering programming fundamentals, data structures, algorithms, and full-stack web development with projects.", url := "https://www.freecodecamp.org/learn/", platform := "FreeCodeCamp", duration := "Self-paced", rating := "4.8", instructor := "FreeCodeCamp", difficulty := "Beginner to Advanced", tags := ["programming", "web development", "full-stack", "free"] },
    { title := "Coursera: Introduction to Computer Science and Programming Specialization (University of London)", description := "Covers programming, data structures, algorithms, and system design concepts for intermediate learners.", url := "https://www.coursera.org/specializations/computer-science", platform := "Coursera", duration := "16-24 weeks", rating := "4.7", instructor := "University of London", difficulty := "Intermediate", tags := ["computer science", "programming", "algorithms", "university"] }
  ]
  else if ((strContains career_lower "data" && strContains career_lower "scientist") || strContains career_lower "data science") then [
    { title := "DataCamp: Data Scientist with Python Career Track", description := "A complete learning path covering Python, statistics, machine learning, and deep learning with hands-on projects.", url := "https://www.datacamp.com/tracks/data-scientist-with-python", platform := "DataCamp", duration := "Self-paced", rating := "4.6", instructor := "DataCamp", difficulty := "Intermediate", tags := ["python", "statistics", "machine learning", "data science"] },
    { title := "edX: Data Science MicroMasters (UC San Diego)", description := "Advanced program focusing on mathematics, statistics, machine learning, and production-ready data science skills.", url := "https://www.edx.org/micromasters/data-science", platform := "edX", duration := "1-2 years", rating := "4.8", instructor := "UC San Diego", difficulty := "Advanced", tags := ["data science", "statistics", "machine learning", "micromasters"] }
  ]
  else if ((strContains career_lower "ai" && strContains career_lower "engineer") || strContains career_lower "artificial intelligence") then [
    { title := "DeepLearning.AI: AI For Everyone", description := "A beginner-to-intermediate course introducing AI fundamentals, neural networks, and practical AI applications.", url := "https://www.deeplearning.ai/courses/ai-for-everyone/", platform := "DeepLearning.AI", duration := "4 weeks", rating := "4.8", instructor := "DeepLearning.AI", difficulty := "Beginner to Intermediate", tags := ["AI fundamentals", "neural networks", "practical applications"] },
    { title := "Coursera: Deep Learning Specialization (DeepLearning.AI)", description := "Advanced specialization covering neural networks, deep learning frameworks, and production AI systems.", url := "https://www.coursera.org/specializations/deep-learning", platform := "Coursera", duration := "16 weeks", rating := "4.8", instructor := "Andrew Ng", difficulty := "Advanced", tags := ["deep learning", "neural networks", "production AI", "frameworks"] }
  ]
  else if ((strContains career_lower "machine learning" && strContains career_lower "engineer") || strContains career_lower "machine learning") then [
    { title := "Coursera: Machine Learning by Stanford Online", description := "A foundational course on ML algorithms, model development, and deployment by Andrew Ng.", url := "https://www.coursera.org/learn/machine-learning", platform := "Coursera", duration := "11 weeks", rating := "4.9", instructor := "Andrew Ng", difficulty := "Intermediate", tags := ["machine learning", "algorithms", "model development", "deployment"] },
    { title := "Udacity: Machine Learning Engineer Nanodegree", description := "Focuses on advanced ML techniques, MLOps, and production-ready machine learning systems.", url := "https://www.udacity.com/course/machine-learning-engineer-nanodegree--nd009t", platform := "Udacity", duration := "4 months", rating := "4.7", instructor := "Udacity", difficulty := "Advanced", tags := ["MLOps", "production systems", "advanced techniques"] }
  ]
  else if strContains career_lower "data engineer" then [
    { title := "DataCamp: Data Engineer with Python Track", description := "Covers databases, ETL processes, and big data technologies like Spark for intermediate learners.", url := "https://www.datacamp.com/tracks/data-engineer-with-python", platform := "DataCamp", duration := "Self-paced", rating := "4.6", instructor := "DataCamp", difficulty := "Intermediate", tags := ["databases", "ETL", "big data", "Spark", "Python"] },
    { title := "Udemy: The Complete Data Engineering Course", description := "A practical course on data pipelines, databases, and big data tools for building robust data infrastructure.", url := "https://www.udemy.com/course/data-engineering/", platform := "Udemy", duration := "Self-paced", rating := "4.5", instructor := "Various", difficulty := "Intermediate", tags := ["data pipelines", "databases", "big data tools", "infrastructure"] }
  ]
  else if (strContains career_lower "devops" && strContains career_lower "engineer") then [
    { title := "Udemy: AWS Certified DevOps Engineer – Professional", description := "Covers CI/CD pipelines, cloud-native development, and infrastructure automation using AWS tools.", url := "https://www.udemy.com/course/aws-certified-devops-engineer-professional/", platform := "Udemy", duration := "Self-paced", rating := "4.6", instructor := "Various", difficulty := "Intermediate to Advanced", tags := ["AWS", "CI/CD", "cloud-native", "infrastructure automation"] },
    { title := "Pluralsight: DevOps Fundamentals", description := "A learning path focusing on Linux, Docker, Kubernetes, and DevOps practices for intermediate learners.", url := "https://www.pluralsight.com/paths/devops-fundamentals", platform := "Pluralsight", duration := "Self-paced", rating := "4.5", instructor := "Pluralsight", difficulty := "Intermediate", tags := ["Linux", "Docker", "Kubernetes", "DevOps practices"] }
  ]
  else if (strContains career_lower "cybersecurity" && strContains career_lower "engineer") then [
    { title := "Cybrary: Cybersecurity Fundamentals", description := "Covers security fundamentals, network security, and incident response for intermediate to advanced learners.", url := "https://www.cybrary.it/course/cybersecurity-fundamentals/", platform := "Cybrary", duration := "Self-paced", rating := "4.6", instructor := "Cybrary", difficulty := "Intermediate to Advanced", tags := ["security fundamentals", "network security", "incident response"] },
    { title := "Coursera: IBM Cybersecurity Analyst Professional Certificate", description := "Focuses on ethical hacking, network security, and incident response with practical labs.", url := "https://www.coursera.org/professional-certificates/ibm-cybersecurity-analyst", platform := "Coursera", duration := "8 months", rating := "4.7", instructor := "IBM", difficulty := "Intermediate", tags := ["ethical hacking", "network security", "incident response", "labs"] }
  ]
  else if ((strContains career_lower "full stack" && strContains career_lower "developer") || strContains career_lower "web development") then [
    { title := "The Odin Project: Full Stack JavaScript Path", description := "A free, open-source curriculum covering frontend, backend, and database development with JavaScript.", url := "https://www.theodinproject.com/paths/full-stack-javascript", platform := "The Odin Project", duration := "Self-paced", rating := "4.8", instructor := "The Odin Project", difficulty := "Intermediate", tags := ["JavaScript", "frontend", "backend", "database", "free"] },
    { title := "Coursera: Full-Stack Web Development with React Specialization (HKUST)", description := "Intermediate course on frontend, backend, and deployment using React and Node.js.", url := "https://www.coursera.org/specializations/full-stack-react", platform := "Coursera", duration := "6 months", rating := "4.6", instructor := "HKUST", difficulty := "Intermediate", tags := ["React", "Node.js", "full-stack", "deployment"] }
  ]
  else if ((strContains career_lower "mobile" && strContains career_lower "developer") || strContains career_lower "mobile development") then [
    { title := "Udemy: The Complete React Native + Hooks Course", description := "Covers cross-platform mobile development with React Native for iOS and Android.", url := "https://www.udemy.com/course/the-complete-react-native-and-redux-course/", platform := "Udemy", duration := "Self-paced", rating := "4.6", instructor := "Various", difficulty := "Intermediate", tags := ["React Native", "cross-platform", "iOS", "Android", "mobile"] },
    { title := "Coursera: Android App Development Specialization (Vanderbilt University)", description := "Focuses on native Android development with Java and Kotlin for intermediate learners.", url := "https://www.coursera.org/specializations/android-app-development", platform := "Coursera", duration := "6 months", rating := "4.7", instructor := "Vanderbilt University", difficulty := "Intermediate", tags := ["Android", "Java", "Kotlin", "native development"] }
  ]
  else if ((strContains career_lower "cloud" && strContains career_lower "architect") || strContains career_lower "cloud computing") then [
    { title := "AWS Skill Builder: AWS Certified Solutions Architect – Associate", description := "Covers AWS cloud infrastructure design and cloud-native architecture.", url := "https://aws.amazon.com/training/digital/aws-certified-solutions-architect-associate/", platform := "AWS Skill Builder", duration := "Self-paced", rating := "4.8", instructor := "AWS", difficulty := "Intermediate", tags := ["AWS", "cloud infrastructure", "architecture", "certification"] },
    { title := "Pluralsight: Microsoft Azure Architect Design (AZ-304)", description := "Advanced course on Azure-based cloud architecture and multi-cloud strategies.", url := "https://www.pluralsight.com/paths/microsoft-azure-architect-design-az-304", platform := "Pluralsight", duration := "Self-paced", rating := "4.7", instructor := "Pluralsight", difficulty := "Advanced", tags := ["Azure", "cloud architecture", "multi-cloud", "design"] }
  ]
  else if ((strContains career_lower "blockchain" && strContains career_lower "developer") || strContains career_lower "blockchain") then [
    { title := "Coursera: Blockchain Specialization (University at Buffalo)", description := "Covers blockchain fundamentals, smart contracts, and Solidity for Web3 development.", url := "https://www.coursera.org/specializations/blockchain", platform := "Coursera", duration := "6 months", rating := "4.6", instructor := "University at Buffalo", difficulty := "Intermediate", tags := ["blockchain", "smart contracts", "Solidity", "Web3"] },
    { title := "Dapp University: Blockchain Developer Bootcamp", description := "A practical course on building decentralized applications with Ethereum and Solidity.", url := "https://www.dappuniversity.com/bootcamp", platform := "Dapp University", duration := "Self-paced", rating := "4.7", instructor := "Dapp University", difficulty := "Intermediate", tags := ["Ethereum", "Solidity", "DApps", "decentralized applications"] }
  ]
  else if ((strContains career_lower "game" && strContains career_lower "developer") || strContains career_lower "game development") then [
    { title := "Udemy: Complete C# Unity Game Developer 2D", description := "Covers game development with Unity, focusing on game design and graphics programming.", url := "https://www.udemy.com/course/unitycourse/", platform := "Udemy", duration := "Self-paced", rating := "4.7", instructor := "Various", difficulty := "Intermediate", tags := ["Unity", "C#", "game design", "2D games", "graphics programming"] },
    { title := "Coursera: Game Design and Development with Unity (Michigan State University)", description := "Intermediate course on game engines, graphics, and game design principles.", url := "https://www.coursera.org/specializations/game-development", platform := "Coursera", duration := "6 months", rating := "4.6", instructor := "Michigan State University", difficulty := "Intermediate", tags := ["game engines", "graphics", "game design", "Unity"] }
  ]
  else if ((strContains career_lower "embedded" && strContains career_lower "systems" && strContains career_lower "engineer") || strContains career_lower "embedded systems") then [
    { title := "edX: Embedded Systems Essentials with Arm", description := "Covers embedded C, real-time systems, and hardware-software integration.", url := "https://www.edx.org/course/embedded-systems-essentials-with-arm", platform := "edX", duration := "Self-paced", rating := "4.6", instructor := "Arm", difficulty := "Intermediate", tags := ["embedded C", "real-time systems", "hardware-software integration", "Arm"] },
    { title := "Udemy: Mastering Microcontroller and Embedded Driver Development", description := "Advanced course on embedded systems and IoT device development.", url := "https://www.udemy.com/course/mastering-microcontroller-with-embedded-driver-development/", platform := "Udemy", duration := "Self-paced", rating := "4.7", instructor := "Various", difficulty := "Advanced", tags := ["microcontrollers", "embedded systems", "IoT", "driver development"] }
  ]
  else if ((strContains career_lower "computer vision" && strContains career_lower "engineer") || strContains career_lower "computer vision") then [
    { title := "Coursera: Computer Vision Basics (University at Buffalo)", description := "Introduces image processing and computer vision algorithms for advanced learners.", url := "https://www.coursera.org/learn/computer-vision-basics", platform := "Coursera", duration := "4 weeks", rating := "4.6", instructor := "University at Buffalo", difficulty := "Advanced", tags := ["computer vision", "image processing", "algorithms"] },
    { title := "DeepLearning.AI: Computer Vision with Deep Learning", description := "Focuses on deep learning for computer vision tasks like object detection and image segmentation.", url := "https://www.deeplearning.ai/courses/computer-vision-with-deep-learning/", platform := "DeepLearning.AI", duration := "8 weeks", rating := "4.8", instructor := "DeepLearning.AI", difficulty := "Advanced", tags := ["computer vision", "deep learning", "object detection", "image segmentation"] }
  ]
  else if ((strContains career_lower "nlp" && strContains career_lower "engineer") || strContains career_lower "natural language processing") then [
    { title := "Coursera: Natural Language Processing Specialization (DeepLearning.AI)", description := "Advanced specialization on NLP, text processing, and language model development.", url := "https://www.coursera.org/specializations/natural-language-processing", platform := "Coursera", duration := "16 weeks", rating := "4.8", instructor := "DeepLearning.AI", difficulty := "Advanced", tags := ["NLP", "text processing", "language models", "deep learning"] },
    { title := "Fast.ai: Practical Deep Learning for NLP", description := "A practical course on building NLP models with modern frameworks like Transformers.", url := "https://course.fast.ai/", platform := "Fast.ai", duration := "8 weeks", rating := "4.9", instructor := "Jeremy Howard", difficulty := "Intermediate", tags := ["NLP", "deep learning", "Transformers", "practical"] }
  ]
  else if ((strContains career_lower "robotics" && strContains career_lower "engineer") || strContains career_lower "robotics") then [
    { title := "edX: Robotics MicroMasters (University of Pennsylvania)", description := "Covers robotics fundamentals, control systems, and autonomous robot development.", url := "https://www.edx.org/micromasters/upenn-robotics", platform := "edX", duration := "1-2 years", rating := "4.7", instructor := "University of Pennsylvania", difficulty := "Advanced", tags := ["robotics", "control systems", "autonomous robots", "micromasters"] },
    { title := "Udemy: Robotics and ROS – Learn Robot Operating System", description := "Advanced course on ROS, control systems, and robotics programming.", url := "https://www.udemy.com/course/robotics-and-ros-learn-robot-operating-system/", platform := "Udemy", duration := "Self-paced", rating := "4.6", instructor := "Various", difficulty := "Advanced", tags := ["ROS", "control systems", "robotics programming"] }
  ]
  else if ((strContains career_lower "quantum" && strContains career_lower "computing" && strContains career_lower "engineer") || strContains career_lower "quantum computing") then [
    { title := "Qiskit: Learn Quantum Computation Using Qiskit", description := "Free resource covering quantum mechanics, quantum algorithms, and Qiskit programming.", url := "https://qiskit.org/learn/", platform := "Qiskit", duration := "Self-paced", rating := "4.7", instructor := "IBM", difficulty := "Intermediate", tags := ["quantum computing", "Qiskit", "quantum algorithms", "free"] },
    { title := "edX: Quantum Computing Fundamentals (MIT)", description := "Advanced course on quantum mechanics, linear algebra, and quantum software development.", url := "https://www.edx.org/course/quantum-computing-fundamentals", platform := "edX", duration := "12 weeks", rating := "4.8", instructor := "MIT", difficulty := "Advanced", tags := ["quantum mechanics", "linear algebra", "quantum software", "MIT"] }
  ]
  else if ((strContains career_lower "bioinformatics" && strContains career_lower "engineer") || strContains career_lower "bioinformatics") then [
    { title := "Coursera: Bioinformatics Specialization (UC San Diego)", description := "Covers biological data analysis, computational biology, and bioinformatics tools.", url := "https://www.coursera.org/specializations/bioinformatics", platform := "Coursera", duration := "8 months", rating := "4.6", instructor := "UC San Diego", difficulty := "Advanced", tags := ["bioinformatics", "biological data", "computational biology", "tools"] },
    { title := "edX: Introduction to Computational Biology and Bioinformatics", description := "Focuses on programming and data analysis for biological applications.", url := "https://www.edx.org/course/introduction-to-computational-biology-and-bioinformatics", platform := "edX", duration := "8 weeks", rating := "4.5", instructor := "Various", difficulty := "Intermediate", tags := ["computational biology", "programming", "data analysis", "biology"] }
  ]
  else if ((strContains career_lower "financial technology" && strContains career_lower "engineer") || strContains career_lower "fintech") then [
    { title := "Coursera: FinTech Foundations and Overview (HKUST)", description := "Covers financial systems, algorithmic trading, and fintech application development.", url := "https://www.coursera.org/learn/fintech-foundations", platform := "Coursera", duration := "4 weeks", rating := "4.6", instructor := "HKUST", difficulty := "Intermediate", tags := ["fintech", "financial systems", "algorithmic trading", "applications"] },
    { title := "Udemy: Algorithmic Trading & Quantitative Analysis Using Python", description := "Advanced course on building fintech applications and algorithmic trading systems.", url := "https://www.udemy.com/course/algorithmic-trading-quantitative-analysis-using-python/", platform := "Udemy", duration := "Self-paced", rating := "4.7", instructor := "Various", difficulty := "Advanced", tags := ["algorithmic trading", "quantitative analysis", "Python", "fintech"] }
  ]
  else if ((strContains career_lower "space" && strContains career_lower "systems" && strContains career_lower "engineer") || strContains career_lower "aerospace") then [
    { title := "edX: Introduction to Aerospace Engineering (MIT)", description := "Covers spacecraft design, orbital mechanics, and systems engineering.", url := "https://www.edx.org/course/introduction-to-aerospace-engineering", platform := "edX", duration := "16 weeks", rating := "4.8", instructor := "MIT", difficulty := "Advanced", tags := ["aerospace", "spacecraft design", "orbital mechanics", "systems engineering"] },
    { title := "Coursera: Spacecraft Dynamics and Control Specialization (University of Colorado Boulder)", description := "Advanced specialization on space mission planning and orbital mechanics.", url := "https://www.coursera.org/specializations/spacecraft-dynamics-control", platform := "Coursera", duration := "8 months", rating := "4.7", instructor := "University of Colorado Boulder", difficulty := "Advanced", tags := ["spacecraft dynamics", "control systems", "mission planning", "orbital mechanics"] }
  ]
  else if (strContains career_lower "ml engineer" || strContains career_lower "machine learning engineer") then [
    { title := "Coursera: Machine Learning Engineering for Production", description := "Learn to build, deploy, and maintain ML systems in production", url := "https://www.coursera.org/specializations/machine-learning-engineering-production", platform := "Coursera", duration := "6 months", rating := "4.8", instructor := "Various", difficulty := "Advanced", tags := ["ML engineering", "production systems", "deployment", "maintenance"] },
    { title := "edX: MLOps Fundamentals", description := "Learn machine learning operations and production ML workflows", url := "https://www.edx.org/course/mlops-fundamentals", platform := "edX", duration := "8 weeks", rating := "4.6", instructor := "Various", difficulty := "Advanced", tags := ["MLOps", "production workflows", "machine learning operations"] }
  ]
  else if (strContains career_lower "research scientist" || strContains career_lower "research") then [
    { title := "MIT OpenCourseWare - Research Methods", description := "Free courses on research methodology and scientific methods", url := "https://ocw.mit.edu/courses/", platform := "MIT OCW", duration := "Self-paced", rating := "4.9", instructor := "MIT Faculty", difficulty := "Intermediate to Advanced", tags := ["research methods", "scientific methods", "academic research"] },
    { title := "Coursera: Research Design and Methods", description := "Learn research design, data collection, and analysis methods", url := "https://www.coursera.org/learn/research-methods", platform := "Coursera", duration := "6 weeks", rating := "4.7", instructor := "Various", difficulty := "Intermediate", tags := ["research design", "data collection", "analysis methods"] }
  ]
  else if (strContains career_lower "research analyst" || strContains career_lower "research analysis") then [
    { title := "Coursera: Data Analysis and Statistical Inference", description := "Learn data analysis techniques and statistical inference methods", url := "https://www.coursera.org/learn/data-analysis", platform := "Coursera", duration := "8 weeks", rating := "4.7", instructor := "Various", difficulty := "Intermediate", tags := ["data analysis", "statistical inference", "research methods"] },
    { title := "edX: Research Methods and Statistics", description := "Learn research methodology and statistical analysis techniques", url := "https://www.edx.org/course/research-methods-and-statistics", platform := "edX", duration := "10 weeks", rating := "4.6", instructor := "Various", difficulty := "Intermediate", tags := ["research methods", "statistics", "analysis techniques"] }
  ]
  else if (strContains career_lower "mathematician" || strContains career_lower "mathematics") then [
    { title := "MIT OpenCourseWare - Advanced Mathematics", description := "Free advanced mathematics courses from MIT", url := "https://ocw.mit.edu/courses/mathematics/", platform := "MIT OCW", duration := "Self-paced", rating := "4.9", instructor := "MIT Faculty", difficulty := "Advanced", tags := ["advanced mathematics", "theoretical math", "mathematical research"] },
    { title := "Coursera: Mathematics for Machine Learning", description := "Learn the mathematical foundations needed for machine learning", url := "https://www.coursera.org/specializations/mathematics-machine-learning", platform := "Coursera", duration := "6 months", rating := "4.7", instructor := "Various", difficulty := "Advanced", tags := ["mathematics", "machine learning", "mathematical foundations"] }
  ]
  else if (strContains career_lower "cryptographer" || strContains career_lower "cryptography") then [
    { title := "Coursera: Cryptography Specialization", description := "Learn cryptographic protocols, algorithms, and security principles", url := "https://www.coursera.org/specializations/cryptography", platform := "Coursera", duration := "6 months", rating := "4.8", instructor := "Various", difficulty := "Advanced", tags := ["cryptography", "security protocols", "algorithms", "security principles"] },
    { title := "edX: Applied Cryptography", description := "Learn practical cryptography applications and implementations", url := "https://www.edx.org/course/applied-cryptography", platform := "edX", duration := "10 weeks", rating := "4.7", instructor := "Various", difficulty := "Advanced", tags := ["applied cryptography", "practical applications", "implementations"] }
  ]
  else if (strContains career_lower "system architect" || strContains career_lower "systems architect") then [
    { title := "Coursera: Software Architecture Specialization", description := "Learn software architecture principles, patterns, and design", url := "https://www.coursera.org/specializations/software-architecture", platform := "Coursera", duration := "6 months", rating := "4.7", instructor := "Various", difficulty := "Advanced", tags := ["software architecture", "design patterns", "system design"] },
    { title := "edX: System Design and Architecture", description := "Learn to design scalable and maintainable software systems", url := "https://www.edx.org/course/system-design-and-architecture", platform := "edX", duration := "10 weeks", rating := "4.6", instructor := "Various", difficulty := "Advanced", tags := ["system design", "architecture", "scalability", "maintainability"] }
  ]
  else if (strContains career_lower "team lead" || strContains career_lower "team leadership") then [
    { title := "Coursera: Leadership and Management Specialization", description := "Learn leadership skills, team management, and organizational behavior", url := "https://www.coursera.org/specializations/leadership-management", platform := "Coursera", duration := "6 months", rating := "4.7", instructor := "Various", difficulty := "Intermediate", tags := ["leadership", "team management", "organizational behavior"] },
    { title := "edX: Leadership in Engineering", description := "Learn to lead engineering teams and manage technical projects", url := "https://www.edx.org/course/leadership-in-engineering", platform := "edX", duration := "8 weeks", rating := "4.6", instructor := "Various", difficulty := "Intermediate", tags := ["engineering leadership", "team management", "technical projects"] }
  ]
  else if (strContains career_lower "innovation lead" || strContains career_lower "innovation") then [
    { title := "Coursera: Innovation Management Specialization", description := "Learn innovation strategies, design thinking, and creative problem solving", url := "https://www.coursera.org/specializations/innovation-management", platform := "Coursera", duration := "6 months", rating := "4.7", instructor := "Various", difficulty := "Intermediate", tags := ["innovation management", "design thinking", "creative problem solving"] },
    { title := "edX: Innovation and Entrepreneurship", description := "Learn to develop innovative ideas and turn them into successful businesses", url := "https://www.edx.org/course/innovation-and-entrepreneurship", platform := "edX", duration := "10 weeks", rating := "4.6", instructor := "Various", difficulty := "Intermediate", tags := ["innovation", "entrepreneurship", "business development"] }
  ]
  else if (strContains career_lower "operations research" || strContains career_lower "operations") then [
    { title := "Coursera: Operations Management Specialization", description := "Learn operations management, supply chain, and process optimization", url := "https://www.coursera.org/specializations/operations-management", platform := "Coursera", duration := "6 months", rating := "4.7", instructor := "Various", difficulty := "Intermediate", tags := ["operations management", "supply chain", "process optimization"] },
    { title := "edX: Introduction to Operations Management", description := "Learn the fundamentals of operations and supply chain management", url := "https://www.edx.org/course/introduction-to-operations-management", platform := "edX", duration := "8 weeks", rating := "4.6", instructor := "Various", difficulty := "Intermediate", tags := ["operations", "supply chain", "management fundamentals"] }
  ]
  else if (strContains career_lower "quantitative analyst" || strContains career_lower "quant") then [
    { title := "Coursera: Financial Engineering and Risk Management", description := "Learn quantitative finance, risk management, and financial modeling", url := "https://www.coursera.org/specializations/financial-engineering", platform := "Coursera", duration := "8 months", rating := "4.8", instructor := "Columbia University", difficulty := "Advanced", tags := ["quantitative finance", "risk management", "financial modeling"] },
    { title := "edX: Quantitative Methods for Finance", description := "Advanced course on mathematical and statistical methods in finance", url := "https://www.edx.org/course/quantitative-methods-for-finance", platform := "edX", duration := "12 weeks", rating := "4.7", instructor := "Various", difficulty := "Advanced", tags := ["quantitative methods", "finance", "mathematical methods", "statistics"] }
  ]
  else if (strContains career_lower "product manager" || strContains career_lower "product management") then [
    { title := "Coursera: Product Management Specialization", description := "Learn product management fundamentals, strategy, and execution", url := "https://www.coursera.org/specializations/product-management", platform := "Coursera", duration := "6 months", rating := "4.7", instructor := "Various", difficulty := "Intermediate", tags := ["product management", "strategy", "execution", "fundamentals"] },
    { title := "edX: Product Management MicroMasters", description := "Advanced program on product management and innovation", url := "https://www.edx.org/micromasters/product-management", platform := "edX", duration := "1 year", rating := "4.6", instructor := "Various", difficulty := "Advanced", tags := ["product management", "innovation", "micromasters", "advanced"] }
  ]
  else if (strContains career_lower "math" || strContains career_lower "mathematics") then [
    { title := "MIT OpenCourseWare - Mathematics", description := "Free mathematics courses from MIT", url := "https://ocw.mit.edu/courses/mathematics/", platform := "MIT OCW", duration := "Self-paced", rating := "4.9", instructor := "MIT Faculty", difficulty := "Intermediate to Advanced", tags := ["mathematics", "calculus", "linear algebra", "advanced math"] },
    { title := "Khan Academy - Mathematics", description := "Comprehensive mathematics courses from basic to advanced", url := "https://www.khanacademy.org/math", platform := "Khan Academy", duration := "Self-paced", rating := "4.8", instructor := "Khan Academy", difficulty := "All Levels", tags := ["mathematics", "algebra", "calculus", "statistics"] },
    { title := "3Blue1Brown - Mathematics", description := "Beautiful visual explanations of mathematical concepts", url := "https://www.youtube.com/c/3blue1brown", platform := "YouTube", duration := "Self-paced", rating := "4.9", instructor := "Grant Sanderson", difficulty := "All Levels", tags := ["mathematics", "visualization", "intuition", "concepts"] }
  ]
  else []

/-- The two generic STEM entries appended when fewer than 2 curated entries matched. -/
def genericSTEMResources : List ResourceRecord := [
  { title := "Khan Academy - STEM Courses", description := "Free comprehensive courses in science, technology, engineering, and mathematics.", url := "https://www.khanacademy.org/", platform := "Khan Academy", duration := "Self-paced", rating := "4.8", instructor := "Khan Academy", difficulty := "All Levels", tags := ["STEM", "free", "comprehensive", "all levels"] },
  { title := "MIT OpenCourseWare", description := "Free access to MIT course materials across all STEM disciplines.", url := "https://ocw.mit.edu/", platform := "MIT OCW", duration := "Self-paced", rating := "4.9", instructor := "MIT Faculty", difficulty := "Intermediate to Advanced", tags := ["MIT", "free", "university level", "comprehensive"] }
]

/-- `_get_career_specific_resources` (roadmap_service.py): lower-case the
    career name, look it up in the curated table, then pad with the generic
    STEM entries until at least 2 resources are present (the Python `for`
    loop appends each generic entry only while `len(resources) < 2`). -/
def get_career_specific_resources (career_name : String) : List ResourceRecord :=
  let career_lower := strLower career_name
  let resources := careerSpecificBase career_lower
  genericSTEMResources.foldl
    (fun acc r => if acc.length < 2 then acc ++ [r] else acc) resources


/-! ## Roadmap templates and the deterministic fallback builder -/

/-- `_get_software_engineer_roadmap`: the hand-authored Software Engineer
    template (duration adjusted by `user_level`). -/
def get_software_engineer_roadmap (user_level : String) (_career_data : CareerData) : Roadmap :=
  let duration_map := [("beginner", "18-24 months"), ("intermediate", "12-18 months"), ("advanced", "6-12 months")]
  { career := "Software Engineer"
    overview := "Comprehensive roadmap to become a professional software engineer with strong technical skills."
    estimated_duration := lookupD duration_map user_level "18-24 months"
    skill_domains := [
      ("programming", ["Python", "JavaScript", "Java", "TypeScript", "Git"]),
      ("web_development", ["React", "Node.js", "REST APIs", "Databases", "HTML/CSS"]),
      ("computer_science", ["Data Structures", "Algorithms", "System Design", "Networking"]),
      ("tools", ["Docker", "AWS/GCP", "CI/CD", "Testing Frameworks"])]
    phases := [
      { name := "Programming Fundamentals", duration := "2-4 months",
        description := "Master core programming concepts and your first language",
        topics := ["Variables and Data Types", "Control Flow", "Functions", "Object-Oriented Programming", "Basic Algorithms"],
        difficulty := "beginner" },
      { name := "Data Structures & Algorithms", duration := "3-4 months",
        description := "Learn essential CS concepts for technical interviews",
        topics := ["Arrays and Lists", "Stacks and Queues", "Trees and Graphs", "Sorting Algorithms", "Hash Tables"],
        difficulty := "intermediate" },
      { name := "Web Development", duration := "3-5 months",
        description := "Build full-stack web applications",
        topics := ["HTML/CSS/JavaScript", "Frontend Framework (React/Vue)", "Backend APIs", "Databases", "DevOps Basics"],
        difficulty := "intermediate" },
      { name := "System Design & Architecture", duration := "4-6 months",
        description := "Learn to design scalable systems",
        topics := ["Microservices", "Load Balancing", "Caching", "Database Design", "Cloud Platforms"],
        difficulty := "advanced" }]
    math_prerequisites := ["Basic Algebra", "Discrete Mathematics", "Statistics", "Linear Algebra"]
    milestones := [
      { name := "Programming Proficient",
        description := "Can write clean, working code in at least one language",
        target_date := "2-4 months",
        criteria := ["Complete programming projects", "Understand OOP", "Debug effectively"] },
      { name := "Technical Interview Ready",
        description := "Can solve coding problems and explain solutions",
        target_date := "6-8 months",
        criteria := ["Solve coding problems", "Explain algorithms", "System design basics"] }] }

/-- `_get_data_scientist_roadmap`: the hand-authored Data Scientist template. -/
def get_data_scientist_roadmap (user_level : String) (_career_data : CareerData) : Roadmap :=
  let duration_map := [("beginner", "20-30 months"), ("intermediate", "15-20 months"), ("advanced", "8-12 months")]
  { career := "Data Scientist"
    overview := "Complete roadmap to become a professional data scientist with strong mathematical and ML skills."
    estimated_duration := lookupD duration_map user_level "20-30 months"
    skill_domains := [
      ("mathematics", ["Statistics", "Linear Algebra", "Calculus", "Probability Theory"]),
      ("programming", ["Python", "R", "SQL", "Pandas", "NumPy"]),
      ("machine_learning", ["Scikit-learn", "TensorFlow", "PyTorch", "Feature Engineering"]),
      ("visualization", ["Matplotlib", "Seaborn", "Plotly", "Tableau"])]
    phases := [
      { name := "Mathematics & Statistics Foundation", duration := "3-5 months",
        description := "Build essential mathematical foundation for data science",
        topics := ["Statistics", "Probability", "Linear Algebra", "Calculus", "Hypothesis Testing"],
        difficulty := "beginner" },
      { name := "Programming & Data Manipulation", duration := "3-4 months",
        description := "Master Python/R and data manipulation libraries",
        topics := ["Python Programming", "Pandas/NumPy", "Data Cleaning", "SQL", "Jupyter Notebooks"],
        difficulty := "intermediate" },
      { name := "Machine Learning Fundamentals", duration := "4-6 months",
        description := "Learn core ML algorithms and techniques",
        topics := ["Supervised Learning", "Unsupervised Learning", "Feature Engineering", "Model Evaluation"],
        difficulty := "intermediate" },
      { name := "Advanced ML & Deep Learning", duration := "4-6 months",
        description := "Master advanced techniques and neural networks",
        topics := ["Deep Learning", "Neural Networks", "Computer Vision", "NLP", "Time Series"],
        difficulty := "advanced" }]
    math_prerequisites := ["Statistics & Probability", "Linear Algebra", "Calculus", "Discrete Math"]
    milestones := [
      { name := "Data Analysis Proficient",
        description := "Can perform exploratory data analysis and statistical tests",
        target_date := "6-8 months",
        criteria := ["Clean and analyze datasets", "Create visualizations", "Statistical tests"] }] }

/-- `_get_ai_engineer_roadmap`: the hand-authored AI Engineer template.  Note
    that it carries only two phases (3 + 4 topics) and an empty milestone
    list. -/
def get_ai_engineer_roadmap (_user_level : String) (_career_data : CareerData) : Roadmap :=
  { career := "AI Engineer"
    overview := "Specialized roadmap for AI engineering focusing on deep learning and production AI systems."
    estimated_duration := "18-24 months"
    skill_domains := [
      ("programming", ["Python", "C++", "PyTorch", "TensorFlow"]),
      ("ai_ml", ["Deep Learning", "Transformers", "Computer Vision", "NLP"]),
      ("mathematics", ["Linear Algebra", "Calculus", "Statistics", "Information Theory"]),
      ("infrastructure", ["GPU Computing", "Distributed Training", "Model Optimization"])]
    phases := [
      { name := "AI Fundamentals", duration := "3-4 months",
        description := "Build foundation in AI and machine learning",
        topics := ["Machine Learning Basics", "Neural Networks", "Python Programming"],
        difficulty := "beginner" },
      { name := "Deep Learning Mastery", duration := "4-6 months",
        description := "Master deep learning architectures and frameworks",
        topics := ["CNNs", "RNNs", "Transformers", "PyTorch/TensorFlow"],
        difficulty := "intermediate" }]
    math_prerequisites := ["Linear Algebra", "Calculus", "Statistics", "Information Theory"]
    milestones := [] }

/-- The 12 generic placeholder topics substituted when the career has no
    configured skills. -/
def genericSkills : List String :=
  ["Core Concepts & Theory", "Basic Tools & Technologies", "Fundamental Principles",
   "Industry Standards", "Essential Skills", "Practical Applications",
   "Real-world Projects", "Advanced Techniques", "Industry Best Practices",
   "Problem-solving Skills", "Specialized Knowledge", "Leadership & Communication"]

/-- Keyword lists used by `generate_basic_roadmap` to bucket skills into the
    math / programming / soft-skills domains. -/
def mathTerms : List String := ["math", "calculus", "statistics", "algebra", "geometry"]

def progTerms : List String :=
  ["programming", "coding", "software", "development", "python", "java", "javascript"]

def softTerms : List String :=
  ["communication", "leadership", "teamwork", "problem-solving", "critical thinking"]

/-- `generate_basic_roadmap`: the deterministic fallback path.  The template
    selection is a case-insensitive substring chain — note the first branch is
    `"software" in name or "engineer" in name` (a disjunction). -/
def generate_basic_roadmap (career_name : String) (career_data : CareerData)
    (user_level : String) : Roadmap :=
  if strContains (strLower career_name) "software" || strContains (strLower career_name) "engineer" then
    get_software_engineer_roadmap user_level career_data
  else if strContains (strLower career_name) "data" && strContains (strLower career_name) "scientist" then
    get_data_scientist_roadmap user_level career_data
  else if strContains (strLower career_name) "ai" || strContains (strLower career_name) "artificial intelligence" then
    get_ai_engineer_roadmap user_level career_data
  else
    let skills := career_data.skills
    let duration_map := [("beginner", "2-3 years"), ("intermediate", "1-2 years"), ("advanced", "6-12 months")]
    let skills := if skills.isEmpty then genericSkills else skills
    let phases : List RoadmapPhase := [
      { name := "Foundation", duration := "3-6 months",
        description := "Build fundamental knowledge and core skills",
        topics := if 5 ≤ skills.length then skills.take 5 else skills,
        difficulty := "beginner" },
      { name := "Intermediate", duration := "6-12 months",
        description := "Develop practical skills and hands-on experience",
        topics := if 10 ≤ skills.length then (skills.drop 5).take 5
                  else if 5 < skills.length then skills.drop 5 else skills.take 5,
        difficulty := "intermediate" },
      { name := "Advanced", duration := "6-12 months",
        description := "Master advanced concepts and specialize in your area of interest",
        topics := if 10 < skills.length then skills.drop 10
                  else if 10 ≤ skills.length then (skills.drop 5).take 5 else skills.take 5,
        difficulty := "advanced" }]
    let phases := phases.map (fun phase =>
      if phase.topics.isEmpty then { phase with topics := skills.take 3 } else phase)
    { career := career_name
      overview := if career_data.description = "" then
                    "Comprehensive learning path for " ++ career_name
                  else career_data.description
      estimated_duration := lookupD duration_map user_level "1-2 years"
      skill_domains := [
        ("math", skills.filter (fun skill => mathTerms.any (fun t => strContains (strLower skill) t))),
        ("programming", skills.filter (fun skill => progTerms.any (fun t => strContains (strLower skill) t))),
        ("soft_skills", skills.filter (fun skill => softTerms.any (fun t => strContains (strLower skill) t)))]
      phases := phases
      milestones := [
        { name := "Foundation Complete",
          description := "Mastered basic concepts and skills",
          target_date := "3-6 months",
          criteria := ["Completed foundation phase", "Basic skills demonstrated", "Ready for intermediate level"] },
        { name := "Intermediate Complete",
          description := "Developed practical skills and experience",
          target_date := "9-18 months",
          criteria := ["Completed intermediate phase", "Practical projects completed", "Ready for advanced concepts"] },
        { name := "Career Ready",
          description := "Achieved professional competency",
          target_date := "15-30 months",
          criteria := ["All phases completed", "Portfolio of work", "Industry knowledge", "Professional network"] }] }


/-! ## Cleaning, enrichment, milestone floor, completion tracking -/

/-- `_clean_roadmap_structure`: re-build the roadmap keeping only the known
    keys, capping topics at 10, per-phase resources at 5, milestones at 15,
    criteria at 5 and top-level resources at 20.  Keys it does not copy
    (`math_prerequisites`, `error`, per-phase completion data) are dropped,
    i.e. reset to their absent-defaults. -/
def clean_roadmap_structure (roadmap : Roadmap) : Roadmap :=
  { career := roadmap.career
    overview := roadmap.overview
    estimated_duration := roadmap.estimated_duration
    skill_domains := roadmap.skill_domains
    phases := roadmap.phases.map (fun phase =>
      { name := phase.name
        duration := phase.duration
        description := phase.description
        topics := phase.topics.take 10
        difficulty := phase.difficulty
        resources := phase.resources.map (fun rs => rs.take 5) })
    milestones := (roadmap.milestones.take 15).map (fun m =>
      { name := m.name
        description := m.description
        target_date := m.target_date
        criteria := m.criteria.take 5 })
    resources := roadmap.resources.map (fun rs => rs.take 20) }

/-- The two generic placeholder resources synthesized for a phase that would
    otherwise receive fewer than 2 resources (dead in practice, since the
    curated list is never empty — kept for fidelity). -/
def genericPhaseResources (phase : RoadmapPhase) : List ResourceRecord :=
  [{ title := "Learning Resource for " ++ phase.name
     description := "Comprehensive learning materials for " ++ phase.name
     url := "https://www.khanacademy.org/"
     platform := "Khan Academy", duration := "Self-paced", rating := "4.8"
     instructor := "Khan Academy", difficulty := phase.difficulty },
   { title := "Advanced Course for " ++ phase.name
     description := "Advanced learning path for " ++ phase.name
     url := "https://ocw.mit.edu/"
     platform := "MIT OCW", duration := "Self-paced", rating := "4.9"
     instructor := "MIT Faculty", difficulty := phase.difficulty }]

/-- `enhance_roadmap_with_resources`: concatenate the gathered provider
    results (successes only, in task order — passed in as `providerResults`,
    the pure residue of the `asyncio.gather` step) with the curated list,
    de-duplicate with the 40 cap, then give phase `i` the slice
    `unique[i*5 : (i+1)*5]`, backfilling any phase that would get fewer than
    2, and finally clean the structure. -/
def enhance_roadmap_with_resources (roadmap : Roadmap) (_career_data : CareerData)
    (providerResults : List (List ResourceRecord)) : Roadmap :=
  let career_name := roadmap.career
  let career_specific_resources := get_career_specific_resources career_name
  let all_resources := providerResults.flatten ++ career_specific_resources
  let unique_resources := dedupResources all_resources
  let unique_resources :=
    if unique_resources.isEmpty then career_specific_resources else unique_resources
  let roadmap :=
    if unique_resources.isEmpty then roadmap
    else
      { roadmap with
        resources := some unique_resources
        phases := roadmap.phases.enum.map (fun p =>
          let i := p.1
          let phase := p.2
          let phase_resources := (unique_resources.drop (i * 5)).take ((i + 1) * 5 - i * 5)
          let phase_resources :=
            if phase_resources.length < 2 then
              if ¬ career_specific_resources.isEmpty then
                career_specific_resources.take 2
              else genericPhaseResources phase
            else phase_resources
          { phase with resources := some phase_resources }) }
  clean_roadmap_structure roadmap

/-- The derived milestone emitted for one topic of one phase
    (`_ensure_minimum_milestones`); the first criterion is duplicated in the
    source. -/
def derivedMilestone (phase : RoadmapPhase) (topic : String) : Milestone :=
  { name := "Complete: " ++ topic
    description := "Finish " ++ topic ++ " in " ++ phase.name
    target_date := if phase.duration = "" then "TBD" else phase.duration
    criteria := ["Watch/Read core materials for " ++ topic,
                 "Watch/Read core materials for " ++ topic,
                 "Complete 2-3 exercises on " ++ topic] }

/-- Inner loop of `_ensure_minimum_milestones`: one milestone per topic of
    this phase (at most 5 topics were passed in), breaking as soon as the
    combined count reaches 12. -/
def deriveFromTopics (base : Nat) (phase : RoadmapPhase) :
    List String → List Milestone → List Milestone
  | [], derived => derived
  | t :: ts, derived =>
    let derived := derived ++ [derivedMilestone phase t]
    if 12 ≤ base + derived.length then derived
    else deriveFromTopics base phase ts derived

/-- Outer loop of `_ensure_minimum_milestones`: walk phases in order, at most
    5 topics per phase, breaking once the combined count reaches 12. -/
def deriveFromPhases (base : Nat) :
    List RoadmapPhase → List Milestone → List Milestone
  | [], derived => derived
  | phase :: rest, derived =>
    let derived := deriveFromTopics base phase (phase.topics.take 5) derived
    if 12 ≤ base + derived.length then derived
    else deriveFromPhases base rest derived

/-- `_ensure_minimum_milestones`: if fewer than 10 milestones exist, append
    milestones derived from phase topics (stopping at a combined count of
    12). -/
def ensure_minimum_milestones (roadmap : Roadmap) : Roadmap :=
  let milestones := roadmap.milestones
  if 10 ≤ milestones.length then roadmap
  else { roadmap with
         milestones := milestones ++ deriveFromPhases milestones.length roadmap.phases [] }

/-- Completion tracking applied to one phase (`generate_roadmap`, final step):
    attach the topics also present in `completed_topics` and the integer
    percentage.  The source computes
    `int((completed_count / total_topics) * 100)` in floats; for the phases
    this step ever sees, `total_topics ≤ 10` (topics were capped by the
    cleaning step), and for `completed_count ≤ total_topics ≤ 10` the float
    expression equals `⌊completed_count * 100 / total_topics⌋`, which is the
    `Nat` division used here. -/
def applyCompletionToPhase (completed_topics : List String) (phase : RoadmapPhase) :
    RoadmapPhase :=
  let completed := phase.topics.filter (fun t => t ∈ completed_topics)
  let total_topics := phase.topics.length
  { phase with
    completed_topics := some completed
    completion_percentage :=
      some (if 0 < total_topics then completed.length * 100 / total_topics else 0) }

/-- `generate_roadmap`: the synthesizer entry point.  `careers_data` is the
    JSON catalog keyed by exact career name; `aiResult` is the parsed result
    of the generative call (`none` when the provider is disabled, errored or
    unparsable — all those paths fall back to `generate_basic_roadmap`);
    `providerResults` are the gathered resource-provider successes. -/
def generate_roadmap (career_name : String) (user_level : String)
    (completed_topics : Option (List String))
    (careers_data : List (String × CareerData)) (aiResult : Option Roadmap)
    (providerResults : List (List ResourceRecord)) : Roadmap :=
  let career_data :=
    match careers_data.find? (fun p => p.1 = career_name) with
    | some p =>
      { name := career_name, description := p.2.description,
        skills := p.2.skills, category := p.2.category }
    | none =>
      { name := career_name,
        description := "Career path for " ++ career_name, skills := [] }
  let roadmap :=
    match aiResult with
    | some r => r
    | none => generate_basic_roadmap career_name career_data user_level
  let roadmap := enhance_roadmap_with_resources roadmap career_data providerResults
  let roadmap := ensure_minimum_milestones roadmap
  match completed_topics with
  | some ct =>
    if ct.isEmpty then roadmap
    else { roadmap with phases := roadmap.phases.map (applyCompletionToPhase ct) }
  | none => roadmap


/-! ## Conversational assistant (`ai_service.py`, class `AIService`)

`chat_with_ai` wraps up to two generative-model calls per turn.  The model
calls are network collaborators and enter the embedding as `Except`
parameters: `firstCall` is the outcome of `_call_openai_api_with_functions`
(which re-raises provider errors) and `finalCall` the outcome of the second
model call inside `_generate_final_response` (whose exceptions are caught
locally and replaced by a canned sentence).  Tool executions
(`_process_function_calls`) issue further model calls whose results feed only
that second, already-parameterized call, so they carry no additional state.
The `uuid.uuid4()` conversation id and `datetime.now()` timestamps are
likewise opaque inputs. -/

/-- The chat context dict; each key is optional. -/
structure ChatContext where
  career_path : Option String := none
  user_skills : Option (List String) := none
  experience_level : Option String := none
  learning_goals : Option String := none
  learning_style : Option String := none
  deriving Repr, DecidableEq, Inhabited

/-- One stored conversation turn (`type` is `"user"` or `"assistant"`);
    `timestamp` is the opaque wall-clock value. -/
structure ChatTurn where
  type : String := ""
  content : String := ""
  timestamp : Nat := 0
  context : Option ChatContext := none
  deriving Repr, DecidableEq, Inhabited

/-- Accumulated per-user preference signals; absent dict keys are the
    falsy defaults. -/
structure UserPreferences where
  career_interests : List String := []
  current_skills : List String := []
  experience_level : String := ""
  preferred_learning_style : String := ""
  deriving Repr, DecidableEq, Inhabited

/-- The mutable in-process state of `AIService`: `_conversation_memory` and
    `_user_preferences`, both dicts keyed by user id. -/
structure AIState where
  conversation_memory : List (String × List ChatTurn) := []
  user_preferences : List (String × UserPreferences) := []
  deriving Repr, DecidableEq, Inhabited

/-- `self._max_memory_length`. -/
def max_memory_length : Nat := 15

/-- Dict lookup by key. -/
def alistGet? (m : List (String × α)) (k : String) : Option α :=
  (m.find? (fun p => p.1 = k)).map (fun p => p.2)

/-- Dict assignment `m[k] = v`: replace the entry in place, or append a new
    one (Python dicts keep insertion order). -/
def alistSet : List (String × α) → String → α → List (String × α)
  | [], k, v => [(k, v)]
  | p :: m, k, v => if p.1 = k then (k, v) :: m else p :: alistSet m k v

/-- `_get_conversation_history`. -/
def get_conversation_history (st : AIState) (user_id : String) : List ChatTurn :=
  (alistGet? st.conversation_memory user_id).getD []

/-- `_update_conversation_memory`: append the (user, assistant) pair, then
    keep only the last `_max_memory_length` turns (`history[-15:]`). -/
def update_conversation_memory (st : AIState) (user_id user_message ai_response : String)
    (context : Option ChatContext) (now : Nat) : AIState :=
  let hist := (alistGet? st.conversation_memory user_id).getD []
  let hist := hist ++
    [{ type := "user", content := user_message, timestamp := now, context := context },
     { type := "assistant", content := ai_response, timestamp := now, context := context }]
  let hist :=
    if max_memory_length < hist.length then hist.drop (hist.length - max_memory_length)
    else hist
  { st with conversation_memory := alistSet st.conversation_memory user_id hist }

/-- `_update_user_preferences`: merge truthy context values into the stored
    preferences (career interest appended if new, the rest overwritten). -/
def update_user_preferences (st : AIState) (user_id : String) (context : ChatContext) :
    AIState :=
  let prefs := (alistGet? st.user_preferences user_id).getD {}
  let prefs :=
    match context.career_path with
    | some cp =>
      if cp ≠ "" ∧ ¬ cp ∈ prefs.career_interests then
        { prefs with career_interests := prefs.career_interests ++ [cp] }
      else prefs
    | none => prefs
  let prefs :=
    match context.user_skills with
    | some sk => if sk ≠ [] then { prefs with current_skills := sk } else prefs
    | none => prefs
  let prefs :=
    match context.experience_level with
    | some el => if el ≠ "" then { prefs with experience_level := el } else prefs
    | none => prefs
  let prefs :=
    match context.learning_style with
    | some ls => if ls ≠ "" then { prefs with preferred_learning_style := ls } else prefs
    | none => prefs
  { st with user_preferences := alistSet st.user_preferences user_id prefs }

/-- `_get_fallback_response`: the canned keyword-matched replies used when the
    model call failed. -/
def get_fallback_response (message : String) : String :=
  let ml := strLower message
  if ["career", "job", "profession"].any (fun w => strContains ml w) then
    "I\x27d be happy to help you explore STEM careers! Could you tell me more about your interests and skills?"
  else if ["learn", "study", "course", "skill"].any (fun w => strContains ml w) then
    "Learning new skills is exciting! What specific area would you like to focus on?"
  else if ["interview", "apply", "resume"].any (fun w => strContains ml w) then
    "Interview preparation is crucial! What type of position are you preparing for?"
  else
    "I\x27m here to help with your STEM career journey! What would you like to know more about?"

/-- `_generate_enhanced_suggestions`: keyword-matched base list, optionally
    extended from stored preferences and recent history, capped at 6. -/
def generate_enhanced_suggestions (st : AIState) (message : String)
    (user_id : Option String) (history : List ChatTurn) : List String :=
  let ml := strLower message
  let base :=
    if ["career", "job", "profession"].any (fun w => strContains ml w) then
      ["Explore specific career paths", "Get skill gap analysis",
       "Find learning resources", "Learn about job market trends"]
    else if ["learn", "study", "course", "skill"].any (fun w => strContains ml w) then
      ["Get personalized learning path", "Find online courses",
       "Discover practice projects", "Get skill development tips"]
    else if ["interview", "apply", "resume"].any (fun w => strContains ml w) then
      ["Get interview preparation tips", "Learn about common questions",
       "Practice technical skills", "Build your portfolio"]
    else
      ["Explore STEM careers", "Get career recommendations",
       "Analyze your skills", "Find learning resources"]
  let base :=
    match user_id with
    | some uid =>
      match alistGet? st.user_preferences uid with
      | some prefs =>
        let base :=
          match prefs.career_interests with
          | c :: _ => base ++ ["Learn more about " ++ c]
          | [] => base
        if prefs.preferred_learning_style ≠ "" then
          base ++ ["Find " ++ prefs.preferred_learning_style ++ " learning resources"]
        else base
      | none => base
    | none => base
  let base :=
    if 2 < history.length then
      let recent_topics :=
        (history.drop (history.length - 4)).filterMap (fun m =>
          if m.type = "user" then some (strLower m.content) else none)
      let base :=
        if recent_topics.any (fun topic => strContains topic "python") then
          base ++ ["Explore Python-based careers"]
        else base
      if recent_topics.any (fun topic => strContains topic "data") then
        base ++ ["Learn about data science careers"]
      else base
    else base
  base.take 6

/-- `_generate_follow_up_questions`: keyword-matched fixed triples. -/
def generate_follow_up_questions (message : String) : List String :=
  let ml := strLower message
  if ["career", "job"].any (fun w => strContains ml w) then
    ["What specific skills would you like to develop?",
     "Are you interested in any particular industry?",
     "What\x27s your timeline for making a career change?"]
  else if ["learn", "study"].any (fun w => strContains ml w) then
    ["How much time can you dedicate to learning?",
     "Do you prefer online courses or in-person learning?",
     "What\x27s your preferred learning pace?"]
  else if ["interview", "apply"].any (fun w => strContains ml w) then
    ["What type of company are you targeting?",
     "Do you have any specific concerns about interviews?",
     "What\x27s your current experience level?"]
  else
    ["What interests you most about STEM?",
     "What are your current strengths?",
     "Where do you see yourself in 5 years?"]


/-- Outcome of `_call_openai_api_with_functions` when it does not raise:
    either the model elected to call functions (name / raw-arguments pairs)
    or it produced plain text (whose content the provider may leave `None`,
    modelled as `none`). -/
inductive FirstOutcome where
  | functionCalls (calls : List (String × String))
  | text (content : Option String)
  deriving Repr, DecidableEq, Inhabited

/-- The answer object returned by `chat_with_ai`.  On the fallback path the
    source dict omits the `context` and `user_preferences` keys; the absent
    values are the defaults. -/
structure ChatResponse where
  response : String := ""
  suggestions : List String := []
  follow_up_questions : List String := []
  conversation_id : String := ""
  function_calls : List (String × String) := []
  context : Option ChatContext := none
  user_preferences : UserPreferences := {}
  error : Option String := none
  deriving Repr, DecidableEq, Inhabited

/-- `chat_with_ai`: the chat entry point.  `firstCall` is the outcome of the
    (provider-bound) first model call — `.error` when the provider raised, in
    which case the whole `try` body aborts into the `except` arm that builds
    the canned fallback object; `finalCall` is the outcome of the second model
    call made by `_generate_final_response` when tools were invoked (its
    exceptions are caught locally and replaced by a fixed sentence).  A `None`
    text content flows through `response.get("response", ...)` unreplaced
    (the key exists) and is modelled as `""`.  Returns the answer object and
    the updated service state. -/
def chat_with_ai (st : AIState) (message : String) (context : Option ChatContext)
    (user_id : Option String) (conversation_id : String) (now : Nat)
    (firstCall : Except String FirstOutcome)
    (finalCall : Except String String) : ChatResponse × AIState :=
  let conversation_history :=
    match user_id with
    | some uid => get_conversation_history st uid
    | none => []
  let st :=
    match context, user_id with
    | some ctx, some uid => update_user_preferences st uid ctx
    | _, _ => st
  match firstCall with
  | .error e =>
    ({ response := get_fallback_response message
       suggestions := ["Try rephrasing your question", "Ask about career guidance",
                       "Get learning recommendations"]
       follow_up_questions := []
       conversation_id := conversation_id
       error := some e }, st)
  | .ok outcome =>
    let (final_response, function_calls) :=
      match outcome with
      | .functionCalls calls =>
        if calls.isEmpty then
          ("I\x27m sorry, I couldn\x27t process your request.", calls)
        else
          (match finalCall with
           | .ok s => s
           | .error _ =>
             "I\x27ve analyzed your request and can provide some insights. Please let me know if you need more specific information.",
           calls)
      | .text content => (content.getD "", [])
    let st :=
      match user_id with
      | some uid => update_conversation_memory st uid message final_response context now
      | none => st
    let suggestions := generate_enhanced_suggestions st message user_id conversation_history
    let follow_up_questions := generate_follow_up_questions message
    ({ response := final_response
       suggestions := suggestions
       follow_up_questions := follow_up_questions
       conversation_id := conversation_id
       function_calls := function_calls
       context := context
       user_preferences :=
         match user_id with
         | some uid => (alistGet? st.user_preferences uid).getD {}
         | none => {} }, st)


/-! ## Lemmas about the de-duplication loop -/

theorem foldl_dedupStep_eq (rs : List ResourceRecord) :
    ∀ u : List ResourceRecord,
      (rs.foldl dedupStep (u, (u.map (fun r => r.url)).reverse)).1
        = u ++ (firstSeenBy ((u.map (fun r => r.url)).reverse) rs).take (40 - u.length) := by
  induction rs with
  | nil => intro u; simp [firstSeenBy]
  | cons r rs ih =>
    intro u
    by_cases hurl : r.url = ""
    · have hstep : dedupStep (u, (u.map (fun r => r.url)).reverse) r
          = (u, (u.map (fun r => r.url)).reverse) := by
        simp [dedupStep, hurl]
      have hfs : firstSeenBy ((u.map (fun r => r.url)).reverse) (r :: rs)
          = firstSeenBy ((u.map (fun r => r.url)).reverse) rs := by
        simp [firstSeenBy, hurl]
      rw [List.foldl_cons, hstep, hfs]
      exact ih u
    · by_cases hseen : r.url ∈ (u.map (fun r => r.url)).reverse
      · have hstep : dedupStep (u, (u.map (fun r => r.url)).reverse) r
            = (u, (u.map (fun r => r.url)).reverse) := by
          simp [dedupStep, hurl, hseen]
        have hfs : firstSeenBy ((u.map (fun r => r.url)).reverse) (r :: rs)
            = firstSeenBy ((u.map (fun r => r.url)).reverse) rs := by
          simp [firstSeenBy, hurl, hseen]
        rw [List.foldl_cons, hstep, hfs]
        exact ih u
      · by_cases hlen : u.length < 40
        · have hstep : dedupStep (u, (u.map (fun r => r.url)).reverse) r
              = (u ++ [r], r.url :: (u.map (fun r => r.url)).reverse) := by
            simp [dedupStep, hurl, hseen, hlen]
          have hrev : ((u ++ [r]).map (fun r => r.url)).reverse
              = r.url :: (u.map (fun r => r.url)).reverse := by
            simp
          have hih := ih (u ++ [r])
          rw [hrev] at hih
          have hfs : firstSeenBy ((u.map (fun r => r.url)).reverse) (r :: rs)
              = r :: firstSeenBy (r.url :: (u.map (fun r => r.url)).reverse) rs := by
            simp [firstSeenBy, hurl, hseen]
          rw [List.foldl_cons, hstep, hih, hfs]
          have h40 : 40 - u.length = (40 - (u ++ [r]).length) + 1 := by
            simp only [List.length_append, List.length_cons, List.length_nil]
            omega
          rw [h40, List.take_succ_cons]
          simp
        · have hstep : dedupStep (u, (u.map (fun r => r.url)).reverse) r
            = (u, (u.map (fun r => r.url)).reverse) := by
            simp only [dedupStep]
            rw [if_neg hurl, if_neg (by push_neg; intro _; omega)]
          have h0 : 40 - u.length = 0 := by omega
          have hfs : firstSeenBy ((u.map (fun r => r.url)).reverse) (r :: rs)
              = r :: firstSeenBy (r.url :: (u.map (fun r => r.url)).reverse) rs := by
            simp [firstSeenBy, hurl, hseen]
          rw [List.foldl_cons, hstep, ih u, hfs, h0]
          simp

/-- `dedupResources` keeps the first record carrying each distinct nonempty
    URL, in input order, capped at 40. -/
theorem dedupResources_eq (rs : List ResourceRecord) :
    dedupResources rs = (firstSeenBy [] rs).take 40 := by
  have := foldl_dedupStep_eq rs []
  simpa [dedupResources] using this

theorem firstSeenBy_sublist (seen : List String) (rs : List ResourceRecord) :
    (firstSeenBy seen rs).Sublist rs := by
  induction rs generalizing seen with
  | nil => simp [firstSeenBy]
  | cons r rs ih =>
    simp only [firstSeenBy]
    by_cases h : r.url = "" ∨ r.url ∈ seen
    · rw [if_pos h]; exact (ih seen).trans (List.sublist_cons_self r rs)
    · rw [if_neg h]; exact List.Sublist.cons₂ r (ih (r.url :: seen))

theorem firstSeenBy_url_ne (seen : List String) (rs : List ResourceRecord) :
    ∀ r ∈ firstSeenBy seen rs, r.url ≠ "" := by
  induction rs generalizing seen with
  | nil => simp [firstSeenBy]
  | cons r rs ih =>
    intro x hx
    simp only [firstSeenBy] at hx
    by_cases h : r.url = "" ∨ r.url ∈ seen
    · rw [if_pos h] at hx; exact ih seen x hx
    · rw [if_neg h] at hx
      rcases List.mem_cons.mp hx with rfl | hx
      · exact fun he => h (Or.inl he)
      · exact ih (r.url :: seen) x hx

theorem firstSeenBy_not_seen (seen : List String) (rs : List ResourceRecord) :
    ∀ r ∈ firstSeenBy seen rs, ¬ r.url ∈ seen := by
  induction rs generalizing seen with
  | nil => simp [firstSeenBy]
  | cons r rs ih =>
    intro x hx
    simp only [firstSeenBy] at hx
    by_cases h : r.url = "" ∨ r.url ∈ seen
    · rw [if_pos h] at hx; exact ih seen x hx
    · rw [if_neg h] at hx
      rcases List.mem_cons.mp hx with rfl | hx
      · exact fun hs => h (Or.inr hs)
      · intro hs
        exact ih (r.url :: seen) x hx (List.mem_cons_of_mem _ hs)

theorem firstSeenBy_nodup_urls (seen : List String) (rs : List ResourceRecord) :
    ((firstSeenBy seen rs).map (fun r => r.url)).Nodup := by
  induction rs generalizing seen with
  | nil => simp [firstSeenBy]
  | cons r rs ih =>
    simp only [firstSeenBy]
    by_cases h : r.url = "" ∨ r.url ∈ seen
    · rw [if_pos h]; exact ih seen
    · rw [if_neg h]
      simp only [List.map_cons, List.nodup_cons]
      constructor
      · intro hmem
        rcases List.mem_map.mp hmem with ⟨x, hx, hurl⟩
        exact firstSeenBy_not_seen _ _ x hx (hurl ▸ List.mem_cons_self _ _)
      · exact ih (r.url :: seen)

theorem firstSeenBy_mem_url (seen : List String) (rs : List ResourceRecord) :
    ∀ u, ¬ u ∈ seen → (∃ r ∈ rs, r.url = u ∧ u ≠ "") →
      u ∈ (firstSeenBy seen rs).map (fun r => r.url) := by
  induction rs generalizing seen with
  | nil => rintro u _ ⟨r, hr, _⟩; simp at hr
  | cons r rs ih =>
    rintro u hseen ⟨x, hx, hurl, hne⟩
    simp only [firstSeenBy]
    by_cases h : r.url = "" ∨ r.url ∈ seen
    · rw [if_pos h]
      rcases List.mem_cons.mp hx with rfl | hx
      · rcases h with h | h
        · exact absurd (hurl ▸ h) hne
        · exact absurd (hurl ▸ h) hseen
      · exact ih seen u hseen ⟨x, hx, hurl, hne⟩
    · rw [if_neg h]
      simp only [List.map_cons, List.mem_cons]
      by_cases hu : u = r.url
      · exact Or.inl hu
      · refine Or.inr (ih (r.url :: seen) u ?_ ?_)
        · intro hmem
          rcases List.mem_cons.mp hmem with h1 | h1
          · exact hu h1
          · exact hseen h1
        · rcases List.mem_cons.mp hx with rfl | hx1
          · exact absurd hurl.symm hu
          · exact ⟨x, hx1, hurl, hne⟩

/-- Every record in the de-duplicated list has a nonempty URL. -/
theorem dedupResources_url_ne (rs : List ResourceRecord) :
    ∀ r ∈ dedupResources rs, r.url ≠ "" := by
  intro r hr
  rw [dedupResources_eq] at hr
  exact firstSeenBy_url_ne [] rs r (List.take_subset _ _ hr)

/-- Two input records with distinct nonempty URLs force a de-duplicated
    output of length at least 2. -/
theorem dedupResources_two_of_distinct (rs : List ResourceRecord)
    (r1 r2 : ResourceRecord) (h1 : r1 ∈ rs) (h2 : r2 ∈ rs)
    (hne : r1.url ≠ r2.url) (hu1 : r1.url ≠ "") (hu2 : r2.url ≠ "") :
    2 ≤ (dedupResources rs).length := by
  rw [dedupResources_eq]
  have hm1 : r1.url ∈ (firstSeenBy [] rs).map (fun r => r.url) :=
    firstSeenBy_mem_url [] rs r1.url (by simp) ⟨r1, h1, rfl, hu1⟩
  have hm2 : r2.url ∈ (firstSeenBy [] rs).map (fun r => r.url) :=
    firstSeenBy_mem_url [] rs r2.url (by simp) ⟨r2, h2, rfl, hu2⟩
  have hlen : 2 ≤ (firstSeenBy [] rs).length := by
    rcases List.mem_map.mp hm1 with ⟨x1, hx1, he1⟩
    rcases List.mem_map.mp hm2 with ⟨x2, hx2, he2⟩
    have hx12 : x1 ≠ x2 := fun h => hne (by rw [← he1, ← he2, h])
    rcases (List.mem_iff_get.mp hx1) with ⟨i1, hi1⟩
    rcases (List.mem_iff_get.mp hx2) with ⟨i2, hi2⟩
    have : i1 ≠ i2 := fun h => hx12 (by rw [← hi1, ← hi2, h])
    have h1lt := i1.isLt
    have h2lt := i2.isLt
    omega
  rw [List.length_take]
  omega

/-- A nonempty-URL input record forces a nonempty de-duplicated output. -/
theorem dedupResources_ne_nil (rs : List ResourceRecord)
    (r : ResourceRecord) (h : r ∈ rs) (hu : r.url ≠ "") :
    dedupResources rs ≠ [] := by
  rw [dedupResources_eq]
  have hm : r.url ∈ (firstSeenBy [] rs).map (fun x => x.url) :=
    firstSeenBy_mem_url [] rs r.url (by simp) ⟨r, h, rfl, hu⟩
  intro hnil
  have : firstSeenBy [] rs = [] := by
    cases hfs : firstSeenBy [] rs with
    | nil => rfl
    | cons a l => rw [hfs] at hnil; simp [List.take] at hnil
  rw [this] at hm
  simp at hm


/-! ## Lemmas about the conversation-memory cap -/

/-- Python's `l[-n:]`: the last `n` elements (all of `l` when it is shorter). -/
def lastN (n : Nat) (xs : List α) : List α :=
  xs.drop (xs.length - n)

theorem lastN_eq_reverse_take (n : Nat) (xs : List α) :
    lastN n xs = (xs.reverse.take n).reverse := by
  rw [lastN, List.reverse_take]
  simp

theorem length_lastN_le (n : Nat) (xs : List α) : (lastN n xs).length ≤ n := by
  rw [lastN_eq_reverse_take]
  simp only [List.length_reverse, List.length_take]
  omega

theorem lastN_of_length_le (n : Nat) (xs : List α) (h : xs.length ≤ n) :
    lastN n xs = xs := by
  rw [lastN]
  have : xs.length - n = 0 := by omega
  rw [this, List.drop_zero]

theorem take_append_take (n : Nat) (a b : List α) :
    (a ++ b.take n).take n = (a ++ b).take n := by
  rw [List.take_append_eq_append_take, List.take_append_eq_append_take, List.take_take]
  congr 1
  have : min (n - a.length) n = n - a.length := by omega
  rw [this]

theorem lastN_lastN_append (n : Nat) (xs ys : List α) :
    lastN n (lastN n xs ++ ys) = lastN n (xs ++ ys) := by
  rw [lastN_eq_reverse_take, lastN_eq_reverse_take, lastN_eq_reverse_take,
    List.reverse_append, List.reverse_reverse, List.reverse_append,
    take_append_take]


/-! ## Conversation-memory fold -/

theorem alistGet?_set_self (m : List (String × α)) (k : String) (v : α) :
    alistGet? (alistSet m k v) k = some v := by
  induction m with
  | nil => simp [alistSet, alistGet?]
  | cons p m ih =>
    by_cases hp : p.1 = k
    · simp [alistSet, hp, alistGet?]
    · simpa [alistSet, hp, alistGet?, List.find?_cons, hp] using ih

theorem alistGet?_set_ne (m : List (String × α)) (k k' : String) (v : α)
    (h : k' ≠ k) : alistGet? (alistSet m k v) k' = alistGet? m k' := by
  induction m with
  | nil => simp [alistSet, alistGet?, List.find?_cons, Ne.symm h]
  | cons p m ih =>
    simp only [alistSet]
    by_cases hp : p.1 = k
    · rw [if_pos hp]
      have hp' : ¬ p.1 = k' := fun he => h (Eq.trans he.symm hp)
      simp [alistGet?, List.find?_cons, Ne.symm h, hp']
    · rw [if_neg hp]
      by_cases hp' : p.1 = k'
      · simp [alistGet?, List.find?_cons, hp']
      · simpa [alistGet?, List.find?_cons, hp'] using ih

/-- The two turns appended for one chat exchange. -/
def pairTurns (user_message ai_response : String) (context : Option ChatContext)
    (now : Nat) : List ChatTurn :=
  [{ type := "user", content := user_message, timestamp := now, context := context },
   { type := "assistant", content := ai_response, timestamp := now, context := context }]

theorem get_update_conversation_memory_self (st : AIState)
    (uid umsg aresp : String) (ctx : Option ChatContext) (now : Nat) :
    get_conversation_history (update_conversation_memory st uid umsg aresp ctx now) uid
      = lastN max_memory_length
          (get_conversation_history st uid ++ pairTurns umsg aresp ctx now) := by
  unfold update_conversation_memory get_conversation_history pairTurns
  rw [alistGet?_set_self]
  set hist2 := (alistGet? st.conversation_memory uid).getD [] ++
    [{ type := "user", content := umsg, timestamp := now, context := ctx },
     { type := "assistant", content := aresp, timestamp := now, context := ctx }] with hh
  by_cases h : max_memory_length < hist2.length
  · rw [if_pos h]
    rfl
  · rw [if_neg h]
    simp [lastN_of_length_le _ _ (le_of_not_lt h)]

theorem get_update_conversation_memory_ne (st : AIState)
    (uid v umsg aresp : String) (ctx : Option ChatContext) (now : Nat)
    (h : v ≠ uid) :
    get_conversation_history (update_conversation_memory st uid umsg aresp ctx now) v
      = get_conversation_history st v := by
  unfold update_conversation_memory get_conversation_history
  rw [alistGet?_set_ne _ _ _ _ h]

/-- One chat exchange as recorded by `_update_conversation_memory`: the
    target user, the user message, the assistant reply, the context and the
    timestamp. -/
structure MemUpdate where
  user_id : String := ""
  user_message : String := ""
  ai_response : String := ""
  context : Option ChatContext := none
  now : Nat := 0
  deriving Repr, DecidableEq, Inhabited

/-- Fold a sequence of exchanges through `_update_conversation_memory`. -/
def applyUpdates (st : AIState) (us : List MemUpdate) : AIState :=
  us.foldl (fun st u =>
    update_conversation_memory st u.user_id u.user_message u.ai_response u.context u.now) st

/-- All turns appended for a given user by a sequence of exchanges. -/
def turnsFor (user : String) (us : List MemUpdate) : List ChatTurn :=
  (us.filter (fun u => u.user_id = user)).flatMap
    (fun u => pairTurns u.user_message u.ai_response u.context u.now)

theorem applyUpdates_history (us : List MemUpdate) :
    ∀ (st : AIState) (f : String → List ChatTurn),
      (∀ v, get_conversation_history st v = lastN max_memory_length (f v)) →
      ∀ v, get_conversation_history (applyUpdates st us) v
            = lastN max_memory_length (f v ++ turnsFor v us) := by
  induction us with
  | nil =>
    intro st f h v
    simpa [applyUpdates, turnsFor] using h v
  | cons x us ih =>
    intro st f h v
    have happ : applyUpdates st (x :: us)
        = applyUpdates (update_conversation_memory st x.user_id x.user_message
            x.ai_response x.context x.now) us := rfl
    have hstep : ∀ w, get_conversation_history
        (update_conversation_memory st x.user_id x.user_message x.ai_response
          x.context x.now) w
        = lastN max_memory_length
            (if w = x.user_id then
              f w ++ pairTurns x.user_message x.ai_response x.context x.now
             else f w) := by
      intro w
      by_cases hw : w = x.user_id
      · subst hw
        rw [get_update_conversation_memory_self, h x.user_id, if_pos rfl,
          lastN_lastN_append]
      · rw [get_update_conversation_memory_ne _ _ _ _ _ _ _ hw, if_neg hw]
        exact h w
    have hmain := ih _ _ hstep v
    rw [happ, hmain]
    by_cases hv : v = x.user_id
    · have hturn : turnsFor v (x :: us)
          = pairTurns x.user_message x.ai_response x.context x.now ++ turnsFor v us := by
        unfold turnsFor
        rw [List.filter_cons, if_pos (by simp [hv])]
        rfl
      rw [if_pos hv, hturn, List.append_assoc]
    · have hturn : turnsFor v (x :: us) = turnsFor v us := by
        unfold turnsFor
        rw [List.filter_cons, if_neg (by simp only [decide_eq_true_eq]; exact fun hx => hv hx.symm)]
      rw [if_neg hv, hturn]


/-! ## Lemmas about the curated table and the resource floor -/

/-- The list holds two entries with distinct nonempty URLs. -/
def twoDistinctUrls (l : List ResourceRecord) : Prop :=
  ∃ r1 ∈ l, ∃ r2 ∈ l, r1.url ≠ r2.url ∧ r1.url ≠ "" ∧ r2.url ≠ ""

instance : DecidablePred twoDistinctUrls := fun l => by
  unfold twoDistinctUrls
  infer_instance

/-- A curated-table branch is either the empty default or a list of at least
    two records with distinct nonempty URLs. -/
def goodBranch (l : List ResourceRecord) : Prop :=
  l = [] ∨ (2 ≤ l.length ∧ twoDistinctUrls l)

instance : DecidablePred goodBranch := fun l => by
  unfold goodBranch
  infer_instance

set_option maxHeartbeats 3200000 in
/-- Every branch of the curated table satisfies `goodBranch`. -/
theorem careerSpecificBase_cases (s : String) :
    goodBranch (careerSpecificBase s) := by
  delta careerSpecificBase
  by_cases h0 : (((strContains s "software" && strContains s "engineer") || strContains s "software engineer" || strContains s "computer science")) = true
  · rw [if_pos h0]
    decide
  · rw [if_neg h0]
    by_cases h1 : (((strContains s "data" && strContains s "scientist") || strContains s "data science")) = true
    · rw [if_pos h1]
      decide
    · rw [if_neg h1]
      by_cases h2 : (((strContains s "ai" && strContains s "engineer") || strContains s "artificial intelligence")) = true
      · rw [if_pos h2]
        decide
      · rw [if_neg h2]
        by_cases h3 : (((strContains s "machine learning" && strContains s "engineer") || strContains s "machine learning")) = true
        · rw [if_pos h3]
          decide
        · rw [if_neg h3]
          by_cases h4 : (strContains s "data engineer") = true
          · rw [if_pos h4]
            decide
          · rw [if_neg h4]
            by_cases h5 : ((strContains s "devops" && strContains s "engineer")) = true
            · rw [if_pos h5]
              decide
            · rw [if_neg h5]
              by_cases h6 : ((strContains s "cybersecurity" && strContains s "engineer")) = true
              · rw [if_pos h6]
                decide
              · rw [if_neg h6]
                by_cases h7 : (((strContains s "full stack" && strContains s "developer") || strContains s "web development")) = true
                · rw [if_pos h7]
                  decide
                · rw [if_neg h7]
                  by_cases h8 : (((strContains s "mobile" && strContains s "developer") || strContains s "mobile development")) = true
                  · rw [if_pos h8]
                    decide
                  · rw [if_neg h8]
                    by_cases h9 : (((strContains s "cloud" && strContains s "architect") || strContains s "cloud computing")) = true
                    · rw [if_pos h9]
                      decide
                    · rw [if_neg h9]
                      by_cases h10 : (((strContains s "blockchain" && strContains s "developer") || strContains s "blockchain")) = true
                      · rw [if_pos h10]
                        decide
                      · rw [if_neg h10]
                        by_cases h11 : (((strContains s "game" && strContains s "developer") || strContains s "game development")) = true
                        · rw [if_pos h11]
                          decide
                        · rw [if_neg h11]
                          by_cases h12 : (((strContains s "embedded" && strContains s "systems" && strContains s "engineer") || strContains s "embedded systems")) = true
                          · rw [if_pos h12]
                            decide
                          · rw [if_neg h12]
                            by_cases h13 : (((strContains s "computer vision" && strContains s "engineer") || strContains s "computer vision")) = true
                            · rw [if_pos h13]
                              decide
                            · rw [if_neg h13]
                              by_cases h14 : (((strContains s "nlp" && strContains s "engineer") || strContains s "natural language processing")) = true
                              · rw [if_pos h14]
                                decide
                              · rw [if_neg h14]
                                by_cases h15 : (((strContains s "robotics" && strContains s "engineer") || strContains s "robotics")) = true
                                · rw [if_pos h15]
                                  decide
                                · rw [if_neg h15]
                                  by_cases h16 : (((strContains s "quantum" && strContains s "computing" && strContains s "engineer") || strContains s "quantum computing")) = true
                                  · rw [if_pos h16]
                                    decide
                                  · rw [if_neg h16]
                                    by_cases h17 : (((strContains s "bioinformatics" && strContains s "engineer") || strContains s "bioinformatics")) = true
                                    · rw [if_pos h17]
                                      decide
                                    · rw [if_neg h17]
                                      by_cases h18 : (((strContains s "financial technology" && strContains s "engineer") || strContains s "fintech")) = true
                                      · rw [if_pos h18]
                                        decide
                                      · rw [if_neg h18]
                                        by_cases h19 : (((strContains s "space" && strContains s "systems" && strContains s "engineer") || strContains s "aerospace")) = true
                                        · rw [if_pos h19]
                                          decide
                                        · rw [if_neg h19]
                                          by_cases h20 : ((strContains s "ml engineer" || strContains s "machine learning engineer")) = true
                                          · rw [if_pos h20]
                                            decide
                                          · rw [if_neg h20]
                                            by_cases h21 : ((strContains s "research scientist" || strContains s "research")) = true
                                            · rw [if_pos h21]
                                              decide
                                            · rw [if_neg h21]
                                              by_cases h22 : ((strContains s "research analyst" || strContains s "research analysis")) = true
                                              · rw [if_pos h22]
                                                decide
                                              · rw [if_neg h22]
                                                by_cases h23 : ((strContains s "mathematician" || strContains s "mathematics")) = true
                                                · rw [if_pos h23]
                                                  decide
                                                · rw [if_neg h23]
                                                  by_cases h24 : ((strContains s "cryptographer" || strContains s "cryptography")) = true
                                                  · rw [if_pos h24]
                                                    decide
                                                  · rw [if_neg h24]
                                                    by_cases h25 : ((strContains s "system architect" || strContains s "systems architect")) = true
                                                    · rw [if_pos h25]
                                                      decide
                                                    · rw [if_neg h25]
                                                      by_cases h26 : ((strContains s "team lead" || strContains s "team leadership")) = true
                                                      · rw [if_pos h26]
                                                        decide
                                                      · rw [if_neg h26]
                                                        by_cases h27 : ((strContains s "innovation lead" || strContains s "innovation")) = true
                                                        · rw [if_pos h27]
                                                          decide
                                                        · rw [if_neg h27]
                                                          by_cases h28 : ((strContains s "operations research" || strContains s "operations")) = true
                                                          · rw [if_pos h28]
                                                            decide
                                                          · rw [if_neg h28]
                                                            by_cases h29 : ((strContains s "quantitative analyst" || strContains s "quant")) = true
                                                            · rw [if_pos h29]
                                                              decide
                                                            · rw [if_neg h29]
                                                              by_cases h30 : ((strContains s "product manager" || strContains s "product management")) = true
                                                              · rw [if_pos h30]
                                                                decide
                                                              · rw [if_neg h30]
                                                                by_cases h31 : ((strContains s "math" || strContains s "mathematics")) = true
                                                                · rw [if_pos h31]
                                                                  decide
                                                                · rw [if_neg h31]
                                                                  decide

/-- The padding loop leaves a list of length at least 2 unchanged. -/
theorem pad_of_two_le (b : List ResourceRecord) (g1 g2 : ResourceRecord)
    (h : 2 ≤ b.length) :
    [g1, g2].foldl (fun acc r => if acc.length < 2 then acc ++ [r] else acc) b = b := by
  simp only [List.foldl_cons, List.foldl_nil]
  have h1 : (if b.length < 2 then b ++ [g1] else b) = b := if_neg (by omega)
  rw [h1, if_neg (by omega)]

/-- When the curated branch matched, the padding loop leaves it unchanged. -/
theorem get_career_specific_of_matched (name : String)
    (h : 2 ≤ (careerSpecificBase (strLower name)).length) :
    get_career_specific_resources name = careerSpecificBase (strLower name) := by
  unfold get_career_specific_resources
  exact pad_of_two_le _ _ _ h

/-- When no curated branch matched, the result is exactly the two generic
    STEM entries. -/
theorem get_career_specific_of_unmatched (name : String)
    (h : careerSpecificBase (strLower name) = []) :
    get_career_specific_resources name = genericSTEMResources := by
  simp only [get_career_specific_resources, h]
  decide

/-- The curated lookup always returns at least two records, with two distinct
    nonempty URLs among them. -/
theorem get_career_specific_two (name : String) :
    2 ≤ (get_career_specific_resources name).length
      ∧ twoDistinctUrls (get_career_specific_resources name) := by
  have hgb := careerSpecificBase_cases (strLower name)
  unfold goodBranch at hgb
  rcases hgb with h | ⟨h1, h2⟩
  · rw [get_career_specific_of_unmatched name h]
    exact ⟨by decide, by decide⟩
  · rw [get_career_specific_of_matched name h1]
    exact ⟨h1, h2⟩

/-! ## Lemmas about the milestone floor loops -/

theorem deriveFromTopics_le (base : Nat) (phase : RoadmapPhase) :
    ∀ (topics : List String) (derived : List Milestone),
      base + derived.length < 12 →
      base + (deriveFromTopics base phase topics derived).length ≤ 12 := by
  intro topics
  induction topics with
  | nil => intro derived h; exact le_of_lt h
  | cons t ts ih =>
    intro derived h
    simp only [deriveFromTopics]
    by_cases h12 : 12 ≤ base + (derived ++ [derivedMilestone phase t]).length
    · rw [if_pos h12]
      simp only [List.length_append, List.length_cons, List.length_nil] at h12 ⊢
      omega
    · rw [if_neg h12]
      exact ih _ (by omega)

theorem deriveFromPhases_le (base : Nat) :
    ∀ (phases : List RoadmapPhase) (derived : List Milestone),
      base + derived.length < 12 →
      base + (deriveFromPhases base phases derived).length ≤ 12 := by
  intro phases
  induction phases with
  | nil => intro derived h; exact le_of_lt h
  | cons p ps ih =>
    intro derived h
    simp only [deriveFromPhases]
    by_cases h12 : 12 ≤ base + (deriveFromTopics base p (p.topics.take 5) derived).length
    · rw [if_pos h12]
      exact deriveFromTopics_le base p _ derived h
    · rw [if_neg h12]
      exact ih _ (by omega)

theorem ensure_minimum_milestones_resources (r : Roadmap) :
    (ensure_minimum_milestones r).resources = r.resources := by
  simp only [ensure_minimum_milestones]
  by_cases h : 10 ≤ r.milestones.length
  · rw [if_pos h]
  · rw [if_neg h]

theorem ensure_minimum_milestones_phases (r : Roadmap) :
    (ensure_minimum_milestones r).phases = r.phases := by
  simp only [ensure_minimum_milestones]
  by_cases h : 10 ≤ r.milestones.length
  · rw [if_pos h]
  · rw [if_neg h]

theorem ensure_minimum_milestones_le (r : Roadmap)
    (h : r.milestones.length ≤ 15) :
    (ensure_minimum_milestones r).milestones.length ≤ 15 := by
  simp only [ensure_minimum_milestones]
  by_cases h10 : 10 ≤ r.milestones.length
  · rw [if_pos h10]; exact h
  · rw [if_neg h10]
    simp only [List.length_append]
    have := deriveFromPhases_le r.milestones.length r.phases [] (by simp; omega)
    omega

/-! ## Lemmas about the cleaning step -/

theorem clean_milestones_le (r : Roadmap) :
    (clean_roadmap_structure r).milestones.length ≤ 15 := by
  simp only [clean_roadmap_structure, List.length_map, List.length_take]
  omega

theorem clean_resources_le (r : Roadmap) (l : List ResourceRecord)
    (h : (clean_roadmap_structure r).resources = some l) : l.length ≤ 20 := by
  simp only [clean_roadmap_structure] at h
  cases hr : r.resources with
  | none => rw [hr] at h; simp at h
  | some l0 =>
    rw [hr] at h
    have hl : l = l0.take 20 := by simpa using h.symm
    rw [hl]
    simp only [List.length_take]
    omega

theorem enhance_milestones_le (r : Roadmap) (cd : CareerData)
    (ps : List (List ResourceRecord)) :
    (enhance_roadmap_with_resources r cd ps).milestones.length ≤ 15 := by
  unfold enhance_roadmap_with_resources
  exact clean_milestones_le _

theorem enhance_resources_le (r : Roadmap) (cd : CareerData)
    (ps : List (List ResourceRecord)) (l : List ResourceRecord)
    (h : (enhance_roadmap_with_resources r cd ps).resources = some l) :
    l.length ≤ 20 := by
  unfold enhance_roadmap_with_resources at h
  exact clean_resources_le _ _ h


/-- After enrichment, every phase carries between 2 and 5 attached
    resources. -/
theorem enhance_phase_resources (r : Roadmap) (cd : CareerData)
    (ps : List (List ResourceRecord)) :
    ∀ phase ∈ (enhance_roadmap_with_resources r cd ps).phases,
      ∃ l, phase.resources = some l ∧ 2 ≤ l.length ∧ l.length ≤ 5 := by
  intro phase hphase
  obtain ⟨hlen2, r1, hr1, r2, hr2, hne12, hu1, hu2⟩ :=
    get_career_specific_two r.career
  have hnil : dedupResources (ps.flatten ++ get_career_specific_resources r.career) ≠ [] :=
    dedupResources_ne_nil _ r1 (List.mem_append_right _ hr1) hu1
  have hde : (dedupResources (ps.flatten ++ get_career_specific_resources r.career)).isEmpty = false := by
    rcases hd : dedupResources (ps.flatten ++ get_career_specific_resources r.career) with _ | ⟨a, l⟩
    · exact absurd hd hnil
    · rfl
  simp only [enhance_roadmap_with_resources, hde, Bool.false_eq_true, if_false,
    clean_roadmap_structure, List.map_map, List.mem_map] at hphase
  obtain ⟨q, hq, rfl⟩ := hphase
  simp only [Function.comp_apply]
  set d := dedupResources (ps.flatten ++ get_career_specific_resources r.career) with hd
  set csr := get_career_specific_resources r.career with hcsr
  set slice := (d.drop (q.1 * 5)).take ((q.1 + 1) * 5 - q.1 * 5) with hslice
  by_cases hsl : slice.length < 2
  · have hcsrne : csr.isEmpty = false := by
      rcases hc : csr with _ | ⟨a, l⟩
      · rw [hc] at hlen2; simp at hlen2
      · rfl
    refine ⟨(csr.take 2).take 5, ?_, ?_, ?_⟩
    · simp only [if_pos hsl, hcsrne, Bool.not_eq_true, if_pos]
      simp [hcsrne]
    · simp only [List.length_take]
      omega
    · simp only [List.length_take]
      omega
  · refine ⟨slice.take 5, ?_, ?_, ?_⟩
    · simp [if_neg hsl]
    · have h5 : slice.length ≤ 5 := by
        rw [hslice]
        simp only [List.length_take]
        omega
      simp only [List.length_take]
      omega
    · simp only [List.length_take]
      omega


/-! ## Claim theorems -/

/-- C3: for any sequence of aggregated provider and curated records, the
    de-duplicated resource list contains each URL at most once, in first-seen
    order of the concatenated input (it is exactly the first-occurrence
    subsequence of the input, capped), and has at most 40 entries. -/
theorem C3_dedup_urls_once_first_seen_capped (rs : List ResourceRecord) :
    dedupResources rs = (firstSeenBy [] rs).take 40
      ∧ ((dedupResources rs).map (fun r => r.url)).Nodup
      ∧ (dedupResources rs).length ≤ 40
      ∧ (dedupResources rs).Sublist rs := by
  refine ⟨dedupResources_eq rs, ?_, ?_, ?_⟩
  · rw [dedupResources_eq]
    have hsub : (((firstSeenBy [] rs).take 40).map (fun r : ResourceRecord => r.url)).Sublist
        ((firstSeenBy [] rs).map (fun r : ResourceRecord => r.url)) :=
      (List.take_sublist _ _).map _
    exact (firstSeenBy_nodup_urls [] rs).sublist hsub
  · rw [dedupResources_eq, List.length_take]
    omega
  · rw [dedupResources_eq]
    exact (List.take_sublist _ _).trans (firstSeenBy_sublist [] rs)

/-- C10: any aggregated record whose `url` is missing or empty (modelled as
    `""`) is silently discarded by the de-duplication: it never appears in
    the de-duplicated list. -/
theorem C10_empty_url_discarded (rs : List ResourceRecord) (r : ResourceRecord)
    (h : r ∈ dedupResources rs) : r.url ≠ "" :=
  dedupResources_url_ne rs r h

theorem C10_empty_url_discarded_witness :
    ({ url := "https://example.org" } : ResourceRecord)
        ∈ dedupResources ([{ url := "https://example.org" }] : List ResourceRecord)
      ∧ ({ url := "https://example.org" } : ResourceRecord).url ≠ "" :=
  ⟨by decide, C10_empty_url_discarded ([{ url := "https://example.org" }] : List ResourceRecord) _ (by decide)⟩

/-- C4: for every career name the curated lookup returns at least 2 records
    (padding with the fixed Khan Academy / MIT OCW generic entries whenever
    fewer than 2 career-specific entries matched), it is total (a plain
    function, so it never throws), and the aggregated, de-duplicated
    resource list — even with zero provider results — still has at least 2
    entries. -/
theorem C4_minimum_resource_floor (career_name : String)
    (ps : List (List ResourceRecord)) :
    2 ≤ (get_career_specific_resources career_name).length
      ∧ ((careerSpecificBase (strLower career_name)).length < 2 →
          get_career_specific_resources career_name = genericSTEMResources)
      ∧ 2 ≤ (dedupResources
              (ps.flatten ++ get_career_specific_resources career_name)).length := by
  obtain ⟨h2, r1, hr1, r2, hr2, hne, hu1, hu2⟩ := get_career_specific_two career_name
  refine ⟨h2, ?_, ?_⟩
  · intro hlt
    have hgb := careerSpecificBase_cases (strLower career_name)
    unfold goodBranch at hgb
    rcases hgb with h | ⟨hh, _⟩
    · exact get_career_specific_of_unmatched _ h
    · omega
  · exact dedupResources_two_of_distinct _ r1 r2 (List.mem_append_right _ hr1)
      (List.mem_append_right _ hr2) hne hu1 hu2

theorem C4_minimum_resource_floor_witness :
    (careerSpecificBase (strLower "Zookeeper")).length < 2
      ∧ get_career_specific_resources "Zookeeper" = genericSTEMResources
      ∧ 2 ≤ (get_career_specific_resources "Zookeeper").length :=
  ⟨by decide, (C4_minimum_resource_floor "Zookeeper" []).2.1 (by decide),
   (C4_minimum_resource_floor "Zookeeper" []).1⟩

/-- C1 is violated by the code: with the generative provider disabled and no
    configured resource providers, `generate_roadmap "AI Specialist"` selects
    the AI-engineer template (2 phases, 3+4 topics, no milestones), and the
    milestone-floor synthesis can only derive one milestone per available
    topic, yielding 7 milestones — below the promised floor of 10. -/
theorem C1_milestone_floor_failing_input :
    (generate_roadmap "AI Specialist" "beginner" none [] none []).milestones.length = 7
      ∧ (generate_roadmap "AI Specialist" "beginner" none [] none []).milestones.length < 10 := by
  constructor <;> decide

/-- C2 as stated is false: the template-selection branch is
    `"software" in name.lower() or "engineer" in name.lower()` — a
    disjunction, not a conjunction — so "Mechanical Engineer" (which does not
    contain "software") also receives the software-engineer template. -/
theorem C2_counterexample_or_not_and :
    generate_basic_roadmap "Mechanical Engineer" { name := "Mechanical Engineer" } "beginner"
        = get_software_engineer_roadmap "beginner" { name := "Mechanical Engineer" }
      ∧ strContains (strLower "Mechanical Engineer") "software" = false := by
  constructor <;> decide

/-- C2 (amended): the fallback builder selects the software-engineer template
    exactly for career names that case-insensitively contain "software" OR
    "engineer"; and synthesizing a roadmap for "Software Engineer" at level
    "beginner" (provider disabled) yields exactly the hand-authored phase
    names. -/
theorem C2_software_engineer_template (career_name : String) (cd : CareerData)
    (user_level : String) :
    (generate_basic_roadmap career_name cd user_level
        = get_software_engineer_roadmap user_level cd
      ↔ (strContains (strLower career_name) "software"
          || strContains (strLower career_name) "engineer") = true)
    ∧ ((generate_roadmap "Software Engineer" "beginner" none [] none []).phases.map
        (fun p => p.name))
        = ["Programming Fundamentals", "Data Structures & Algorithms",
           "Web Development", "System Design & Architecture"] := by
  constructor
  · constructor
    · intro heq
      by_contra hcond
      have hcond' : (strContains (strLower career_name) "software"
          || strContains (strLower career_name) "engineer") = false := by
        simpa using hcond
      unfold generate_basic_roadmap at heq
      rw [if_neg (by simp [hcond'])] at heq
      by_cases h2 : (strContains (strLower career_name) "data"
          && strContains (strLower career_name) "scientist") = true
      · rw [if_pos h2] at heq
        have hc := congrArg Roadmap.career heq
        simp [get_data_scientist_roadmap, get_software_engineer_roadmap] at hc
      · rw [if_neg h2] at heq
        by_cases h3 : (strContains (strLower career_name) "ai"
            || strContains (strLower career_name) "artificial intelligence") = true
        · rw [if_pos h3] at heq
          have hc := congrArg Roadmap.career heq
          simp [get_ai_engineer_roadmap, get_software_engineer_roadmap] at hc
        · rw [if_neg h3] at heq
          have hc := congrArg Roadmap.career heq
          simp only [get_software_engineer_roadmap] at hc
          rw [hc] at hcond'
          revert hcond'
          decide
    · intro hcond
      unfold generate_basic_roadmap
      rw [if_pos hcond]
  · decide

theorem C2_software_engineer_template_witness :
    (strContains (strLower "Software Engineer") "software"
        || strContains (strLower "Software Engineer") "engineer") = true
      ∧ generate_basic_roadmap "Software Engineer" {} "beginner"
          = get_software_engineer_roadmap "beginner" {} :=
  ⟨by decide, (C2_software_engineer_template "Software Engineer" {} "beginner").1.mpr (by decide)⟩


/-- C9: every roadmap returned by `generate_roadmap` carries at most 20
    top-level resources (the cleaning step slices `[:20]`, tighter than the
    40 dedup cap) and at most 15 milestones (cleaning slices `[:15]` and the
    milestone-floor synthesis stops at a combined count of 12). -/
theorem C9_top_level_caps (career_name user_level : String)
    (ct : Option (List String)) (cdata : List (String × CareerData))
    (air : Option Roadmap) (ps : List (List ResourceRecord)) :
    (∀ l, (generate_roadmap career_name user_level ct cdata air ps).resources = some l →
        l.length ≤ 20)
      ∧ (generate_roadmap career_name user_level ct cdata air ps).milestones.length ≤ 15 := by
  simp only [generate_roadmap]
  cases ct with
  | none =>
    dsimp only
    constructor
    · intro l hl
      rw [ensure_minimum_milestones_resources] at hl
      exact enhance_resources_le _ _ _ l hl
    · exact ensure_minimum_milestones_le _ (enhance_milestones_le _ _ _)
  | some cl =>
    dsimp only
    by_cases hcl : cl.isEmpty = true
    · rw [if_pos hcl]
      constructor
      · intro l hl
        rw [ensure_minimum_milestones_resources] at hl
        exact enhance_resources_le _ _ _ l hl
      · exact ensure_minimum_milestones_le _ (enhance_milestones_le _ _ _)
    · rw [if_neg hcl]
      constructor
      · intro l hl
        dsimp only at hl
        rw [ensure_minimum_milestones_resources] at hl
        exact enhance_resources_le _ _ _ l hl
      · dsimp only
        exact ensure_minimum_milestones_le _ (enhance_milestones_le _ _ _)

theorem C9_top_level_caps_witness :
    (generate_roadmap "Chef" "beginner" none [] none []).resources = some genericSTEMResources
      ∧ genericSTEMResources.length ≤ 20
      ∧ (generate_roadmap "Chef" "beginner" none [] none []).milestones.length ≤ 15 :=
  ⟨by decide,
   (C9_top_level_caps "Chef" "beginner" none [] none []).1 _ (by decide),
   (C9_top_level_caps "Chef" "beginner" none [] none []).2⟩

/-- C6: when a nonempty `completedTopics` list is supplied, every phase of
    the generated roadmap is annotated with the intersection of its topics
    and the completed list, and with the integer percentage
    `⌊completedCount * 100 / totalTopics⌋` (0 when the phase has no topics,
    with no division-by-zero failure); a phase with topics
    `["A","B","C","D"]` and completed `["A","B"]` gets 50. -/
theorem C6_completion_tracking (career_name user_level : String)
    (ct : List String) (cdata : List (String × CareerData))
    (air : Option Roadmap) (ps : List (List ResourceRecord)) (hct : ct ≠ []) :
    (∀ phase ∈ (generate_roadmap career_name user_level (some ct) cdata air ps).phases,
        phase.completed_topics = some (phase.topics.filter (fun t => t ∈ ct))
          ∧ phase.completion_percentage = some
              (if 0 < phase.topics.length then
                (phase.topics.filter (fun t => t ∈ ct)).length * 100 / phase.topics.length
               else 0))
      ∧ (applyCompletionToPhase ["A", "B"]
          { topics := ["A", "B", "C", "D"] }).completion_percentage = some 50
      ∧ (applyCompletionToPhase ["A", "B"]
          { topics := [] }).completion_percentage = some 0 := by
  refine ⟨?_, by decide, by decide⟩
  intro phase hphase
  have hcl : ct.isEmpty = false := by
    cases ct with
    | nil => exact absurd rfl hct
    | cons a l => rfl
  simp only [generate_roadmap, hcl, Bool.false_eq_true, if_false] at hphase
  rw [List.mem_map] at hphase
  obtain ⟨p0, hp0, rfl⟩ := hphase
  exact ⟨rfl, rfl⟩

theorem C6_completion_tracking_witness :
    (["A"] : List String) ≠ []
      ∧ (applyCompletionToPhase ["A", "B"]
          { topics := ["A", "B", "C", "D"] }).completion_percentage = some 50 :=
  ⟨by decide, (C6_completion_tracking "Chef" "beginner" ["A"] [] none [] (by decide)).2.1⟩

/-- C7: for every user id and every sequence of chat exchanges (possibly
    interleaved with other users' exchanges), the stored per-user history is
    exactly the most recent 15-turn suffix, in order, of all turns appended
    for that user, and so always has length at most 15. -/
theorem C7_conversation_cap (user : String) (us : List MemUpdate) :
    get_conversation_history (applyUpdates {} us) user
        = lastN max_memory_length (turnsFor user us)
      ∧ (get_conversation_history (applyUpdates {} us) user).length
          ≤ max_memory_length := by
  have h := applyUpdates_history us {} (fun _ => []) (fun v => rfl) user
  simp only [List.nil_append] at h
  exact ⟨h, h ▸ length_lastN_le _ _⟩

/-- C8: when the generative provider raises on every call, `chat_with_ai`
    still returns a well-shaped answer object whose reply is the canned
    keyword-matched fallback — in particular nonempty — and (being a total
    function of its inputs) propagates no exception. -/
theorem C8_chat_fallback_nonempty (st : AIState) (message : String)
    (context : Option ChatContext) (user_id : Option String)
    (conversation_id : String) (now : Nat) (e : String)
    (finalCall : Except String String) :
    (chat_with_ai st message context user_id conversation_id now
        (Except.error e) finalCall).1.response = get_fallback_response message
      ∧ (chat_with_ai st message context user_id conversation_id now
          (Except.error e) finalCall).1.response ≠ "" := by
  have hresp : (chat_with_ai st message context user_id conversation_id now
      (Except.error e) finalCall).1.response = get_fallback_response message := rfl
  refine ⟨hresp, hresp ▸ ?_⟩
  simp only [get_fallback_response]
  split
  · decide
  · split
    · decide
    · split
      · decide
      · decide


/-- C5: after resource enrichment, phase `i` is assigned the slice of the
    de-duplicated list at offsets `i*5 .. i*5+5`; whenever that slice has
    fewer than 2 entries the phase instead receives the first 2 curated
    (or, were the curated list empty, generic placeholder) entries; hence
    every phase carries at least 2 and at most 5 attached resources. -/
theorem C5_phase_resource_bounds (roadmap : Roadmap) (cd : CareerData)
    (ps : List (List ResourceRecord)) :
    (∀ phase ∈ (enhance_roadmap_with_resources roadmap cd ps).phases,
        ∃ l, phase.resources = some l ∧ 2 ≤ l.length ∧ l.length ≤ 5)
      ∧ ∀ i (h : i < (enhance_roadmap_with_resources roadmap cd ps).phases.length),
          (2 ≤ (((dedupResources (ps.flatten ++ get_career_specific_resources roadmap.career)).drop
                  (i * 5)).take 5).length →
            ((enhance_roadmap_with_resources roadmap cd ps).phases[i]).resources
              = some (((dedupResources (ps.flatten ++ get_career_specific_resources roadmap.career)).drop
                  (i * 5)).take 5))
          ∧ ((((dedupResources (ps.flatten ++ get_career_specific_resources roadmap.career)).drop
                  (i * 5)).take 5).length < 2 →
              ((enhance_roadmap_with_resources roadmap cd ps).phases[i]).resources
                = some ((get_career_specific_resources roadmap.career).take 2)) := by
  refine ⟨enhance_phase_resources roadmap cd ps, ?_⟩
  intro i h
  obtain ⟨hlen2, r1, hr1, r2, hr2, hne12, hu1, hu2⟩ :=
    get_career_specific_two roadmap.career
  have hnil : dedupResources (ps.flatten ++ get_career_specific_resources roadmap.career) ≠ [] :=
    dedupResources_ne_nil _ r1 (List.mem_append_right _ hr1) hu1
  have hde : (dedupResources (ps.flatten ++ get_career_specific_resources roadmap.career)).isEmpty = false := by
    rcases hd : dedupResources (ps.flatten ++ get_career_specific_resources roadmap.career) with _ | ⟨a, l⟩
    · exact absurd hd hnil
    · rfl
  have hcsrne : (get_career_specific_resources roadmap.career).isEmpty = false := by
    rcases hc : get_career_specific_resources roadmap.career with _ | ⟨a, l⟩
    · rw [hc] at hlen2; simp at hlen2
    · rfl
  have h55 : ∀ j : Nat, (j + 1) * 5 - j * 5 = 5 := by intro j; omega
  simp only [enhance_roadmap_with_resources, hde, Bool.false_eq_true, if_false,
    clean_roadmap_structure, List.map_map, List.length_map, List.enum_length] at h ⊢
  rw [List.getElem_map, List.getElem_enum]
  simp only [Function.comp_apply, h55]
  set d := dedupResources (ps.flatten ++ get_career_specific_resources roadmap.career) with hd
  set csr := get_career_specific_resources roadmap.career with hcsr
  set slice := (d.drop (i * 5)).take 5 with hslice
  constructor
  · intro h2s
    rw [if_neg (by omega)]
    simp only [Option.map_some']
    have hsl5 : slice.length ≤ 5 := by
      rw [hslice]; simp only [List.length_take]; omega
    rw [List.take_of_length_le hsl5]
  · intro h2s
    rw [if_pos h2s]
    simp only [hcsrne, Bool.not_eq_true, if_pos]
    simp only [Option.map_some']
    have : (csr.take 2).length ≤ 5 := by
      simp only [List.length_take]; omega
    rw [List.take_of_length_le this]

theorem C5_phase_resource_bounds_witness :
    (({ phases := [{ name := "Foundation" }] } : Roadmap).career = "")
      ∧ (∃ l, ((enhance_roadmap_with_resources { phases := [{ name := "Foundation" }] } {} []).phases.headI).resources
            = some l ∧ 2 ≤ l.length ∧ l.length ≤ 5) :=
  ⟨rfl,
   (C5_phase_resource_bounds { phases := [{ name := "Foundation" }] } {} []).1
     ((enhance_roadmap_with_resources { phases := [{ name := "Foundation" }] } {} []).phases.headI)
     (by decide)⟩

end PathwiseAI
